import Mathlib

/-!
Verification of the simple-auth authentication and session-trust engine.

The definitions below are a shallow embedding of the server code:
the User document (src/server/models/User.model.js, final schema version),
the two-factor service (src/server/services/twoFactor.service.js),
the auth controllers (src/server/controllers/auth.controller.js and the
controller variant of the same module stored in src/unnamed/part_007) and
the two-factor controller (src/server/controllers/twoFactor.controller.js).

Machine integers are modelled as Nat with explicit reduction modulo 2^32
where the source relies on 32-bit arithmetic (the SHA-256 compression used
by the device-fingerprint and backup-code hashing).  Timestamps are Nat
milliseconds, mirroring the millisecond clock of the source.  Fallible
operations return an explicit result type carrying the error object the
source would hand to its error middleware.
-/

namespace SimpleAuth

/-! ## SHA-256

The source hashes device fingerprints and backup codes with the platform
SHA-256 (crypto.createHash).  This is a byte-for-byte implementation
of FIPS 180-4 over Nat, reduced modulo 2^32 at every operation.
-/

/-- Reduce to a 32-bit word. -/
def mod32 (x : Nat) : Nat := x % 4294967296

/-- 32-bit right rotation. -/
def rotr (n x : Nat) : Nat := mod32 ((x >>> n) ||| (x <<< (32 - n)))

/-- 32-bit bitwise complement. -/
def not32 (x : Nat) : Nat := 4294967295 - x

/-- SHA-256 choose function. -/
def sha256Ch (x y z : Nat) : Nat := (x &&& y) ^^^ (not32 x &&& z)

/-- SHA-256 majority function. -/
def sha256Maj (x y z : Nat) : Nat := (x &&& y) ^^^ (x &&& z) ^^^ (y &&& z)

/-- SHA-256 big sigma 0. -/
def bigSigma0 (x : Nat) : Nat := rotr 2 x ^^^ rotr 13 x ^^^ rotr 22 x

/-- SHA-256 big sigma 1. -/
def bigSigma1 (x : Nat) : Nat := rotr 6 x ^^^ rotr 11 x ^^^ rotr 25 x

/-- SHA-256 small sigma 0. -/
def smallSigma0 (x : Nat) : Nat := rotr 7 x ^^^ rotr 18 x ^^^ (x >>> 3)

/-- SHA-256 small sigma 1. -/
def smallSigma1 (x : Nat) : Nat := rotr 17 x ^^^ rotr 19 x ^^^ (x >>> 10)

/-- SHA-256 round constants. -/
def sha256K : List Nat :=
  [1116352408, 1899447441, 3049323471, 3921009573, 961987163,
   1508970993, 2453635748, 2870763221, 3624381080, 310598401,
   607225278, 1426881987, 1925078388, 2162078206, 2614888103,
   3248222580, 3835390401, 4022224774, 264347078, 604807628,
   770255983, 1249150122, 1555081692, 1996064986, 2554220882,
   2821834349, 2952996808, 3210313671, 3336571891, 3584528711,
   113926993, 338241895, 666307205, 773529912, 1294757372,
   1396182291, 1695183700, 1986661051, 2177026350, 2456956037,
   2730485921, 2820302411, 3259730800, 3345764771, 3516065817,
   3600352804, 4094571909, 275423344, 430227734, 506948616,
   659060556, 883997877, 958139571, 1322822218, 1537002063,
   1747873779, 1955562222, 2024104815, 2227730452, 2361852424,
   2428436474, 2756734187, 3204031479, 3329325298]

/-- SHA-256 initial hash state. -/
def sha256H0 : List Nat :=
  [1779033703, 3144134277, 1013904242, 2773480762,
   1359893119, 2600822924, 528734635, 1541459225]

/-- Pad a byte message per FIPS 180-4: append 0x80, zeros to 56 mod 64,
then the bit length as eight big-endian bytes. -/
def sha256Pad (msg : List Nat) : List Nat :=
  let bitLen := msg.length * 8
  let zeros := (120 - ((msg.length + 1) % 64)) % 64
  msg ++ [0x80] ++ List.replicate zeros 0 ++
    [(bitLen >>> 56) &&& 255, (bitLen >>> 48) &&& 255, (bitLen >>> 40) &&& 255,
     (bitLen >>> 32) &&& 255, (bitLen >>> 24) &&& 255, (bitLen >>> 16) &&& 255,
     (bitLen >>> 8) &&& 255, bitLen &&& 255]

/-- Group bytes into big-endian 32-bit words. -/
def bytesToWords (l : List Nat) : List Nat :=
  (List.range (l.length / 4)).map (fun i =>
    (l.getD (4 * i) 0) <<< 24 ||| (l.getD (4 * i + 1) 0) <<< 16 |||
    (l.getD (4 * i + 2) 0) <<< 8 ||| l.getD (4 * i + 3) 0)

/-- Extend a 16-word block to the 64-word message schedule. -/
def sha256Schedule (block : List Nat) : List Nat :=
  (List.range 48).foldl
    (fun w j =>
      w ++ [mod32 (smallSigma1 (w.getD (j + 14) 0) + w.getD (j + 9) 0 +
                   smallSigma0 (w.getD (j + 1) 0) + w.getD j 0)])
    block

/-- One SHA-256 compression round. -/
def sha256Round (w : List Nat) (st : List Nat) (j : Nat) : List Nat :=
  let a := st.getD 0 0
  let b := st.getD 1 0
  let c := st.getD 2 0
  let d := st.getD 3 0
  let e := st.getD 4 0
  let f := st.getD 5 0
  let g := st.getD 6 0
  let h := st.getD 7 0
  let t1 := mod32 (h + bigSigma1 e + sha256Ch e f g + sha256K.getD j 0 + w.getD j 0)
  let t2 := mod32 (bigSigma0 a + sha256Maj a b c)
  [mod32 (t1 + t2), a, b, c, mod32 (d + t1), e, f, g]

/-- Compress one 64-byte block into the running hash state. -/
def sha256Block (hs : List Nat) (block : List Nat) : List Nat :=
  let w := sha256Schedule (bytesToWords block)
  let st := (List.range 64).foldl (sha256Round w) hs
  (List.range 8).map (fun i => mod32 (hs.getD i 0 + st.getD i 0))

/-- SHA-256 digest of a byte message, as 32 bytes. -/
def sha256 (msg : List Nat) : List Nat :=
  let padded := sha256Pad msg
  let final := (List.range (padded.length / 64)).foldl
    (fun hs i => sha256Block hs ((padded.drop (64 * i)).take 64)) sha256H0
  final.foldr (fun word acc =>
    ((word >>> 24) &&& 255) :: ((word >>> 16) &&& 255) ::
    ((word >>> 8) &&& 255) :: (word &&& 255) :: acc) []

/-- Lower-case hex digit. -/
def hexDigit (n : Nat) : Char :=
  (List.range 10 |>.map (fun i => Char.ofNat (48 + i)) |>.append
    (List.range 6 |>.map (fun i => Char.ofNat (97 + i)))).getD n (Char.ofNat 48)

/-- Lower-case hex encoding of a byte list (two digits per byte),
as produced by digest(hex) and toString(hex) in the source. -/
def hexEncode (l : List Nat) : String :=
  String.mk (l.foldr (fun b acc => hexDigit ((b / 16) % 16) :: hexDigit (b % 16) :: acc) [])

/-- Value of one hex digit character. -/
def hexVal (c : Char) : Nat :=
  if 48 <= c.toNat && c.toNat <= 57 then c.toNat - 48
  else if 97 <= c.toNat && c.toNat <= 102 then c.toNat - 87
  else if 65 <= c.toNat && c.toNat <= 70 then c.toNat - 55
  else 0

/-- Decode hex digit pairs to bytes. -/
def hexDecodeAux : List Char → List Nat
  | c1 :: c2 :: rest => (16 * hexVal c1 + hexVal c2) :: hexDecodeAux rest
  | _ => []

/-- Decode a hex string to bytes, as Buffer.from(s, hex) does. -/
def hexDecode (s : String) : List Nat := hexDecodeAux s.data

/-- UTF-8 bytes of one character. -/
def utf8Char (c : Char) : List Nat :=
  let n := c.toNat
  if n < 128 then [n]
  else if n < 2048 then [192 ||| (n >>> 6), 128 ||| (n &&& 63)]
  else if n < 65536 then
    [224 ||| (n >>> 12), 128 ||| ((n >>> 6) &&& 63), 128 ||| (n &&& 63)]
  else
    [240 ||| (n >>> 18), 128 ||| ((n >>> 12) &&& 63),
     128 ||| ((n >>> 6) &&& 63), 128 ||| (n &&& 63)]

/-- UTF-8 encoding of a string, the byte view Node takes of string input
to crypto.createHash(...).update(...). -/
def utf8Encode (s : String) : List Nat :=
  s.data.foldr (fun c acc => utf8Char c ++ acc) []

/-- Hex SHA-256 digest of a string, crypto.createHash(sha256).update(s).digest(hex). -/
def sha256hex (s : String) : String :=
  hexEncode (sha256 (utf8Encode s))

/-! ## JavaScript string helpers used by the source -/

/-- ASCII lower-casing of one character. -/
def asciiLower (c : Char) : Char :=
  if (65 <= c.toNat && c.toNat <= 90) then Char.ofNat (c.toNat + 32) else c

/-- ASCII upper-casing of one character. -/
def asciiUpper (c : Char) : Char :=
  if (97 <= c.toNat && c.toNat <= 122) then Char.ofNat (c.toNat - 32) else c

/-- JS toLowerCase over the ASCII range, used by findByEmail. -/
def jsToLower (s : String) : String := String.mk (s.data.map asciiLower)

/-- JS toUpperCase over the ASCII range, used by verifyBackupCode. -/
def jsToUpper (s : String) : String := String.mk (s.data.map asciiUpper)

/-- Split a character list at every colon, the semantics of
String.prototype.split with separator colon. -/
def splitColonAux : List Char → List Char → List (List Char)
  | [], acc => [acc.reverse]
  | c :: cs, acc =>
      if c = ':' then acc.reverse :: splitColonAux cs []
      else splitColonAux cs (c :: acc)

/-- JS split at colon on a string. -/
def jsSplitColon (s : String) : List (List Char) := splitColonAux s.data []

/-- JS Array.prototype.join with a colon separator, on character chunks. -/
def jsJoinColon : List (List Char) → List Char
  | [] => []
  | [x] => x
  | x :: xs => x ++ ':' :: jsJoinColon xs

/-- JS Array.prototype.findIndex: index of the first element satisfying
the predicate (none for the -1 result). -/
def jsFindIndex {A : Type} (p : A → Bool) : List A → Option Nat
  | [] => none
  | c :: cs => if p c then some 0 else (jsFindIndex p cs).map (fun n => n + 1)

/-! ## Data model: the persisted User document

Embedding of the final userSchema of src/server/models/User.model.js
(lines 647 to 921): the fields the authentication engine reads or writes.
Timestamps are Nat milliseconds; absent values are Option.none.
-/

/-- The error object produced by the AppError class: a message and an
HTTP status code. -/
structure AppError where
  message : String
  status : Nat
deriving Repr, DecidableEq

/-- One entry of twoFactorAuth.backupCodes: the one-way hash of a
recovery code, its used flag and used-at timestamp. -/
structure BackupCode where
  code : String
  used : Bool
  usedAt : Option Nat
deriving Repr, DecidableEq

/-- One entry of twoFactorAuth.trustedDevices. -/
structure TrustedDevice where
  deviceId : String
  deviceName : String
  userAgent : String
  ipAddress : String
  trustedAt : Nat
  lastUsed : Nat
  isActive : Bool
deriving Repr, DecidableEq

/-- The embedded twoFactorAuth subdocument. -/
structure TwoFactorAuth where
  isEnabled : Bool
  secret : Option String
  tempSecret : Option String
  backupCodes : List BackupCode
  trustedDevices : List TrustedDevice
  lastUsed : Option Nat
  setupAt : Option Nat
  totalUsage : Nat
  failedAttempts : Nat
  lockUntil : Option Nat
deriving Repr, DecidableEq

/-- The embedded accountLockout subdocument. -/
structure AccountLockout where
  failedAttempts : Nat
  lockUntil : Option Nat
deriving Repr, DecidableEq

/-- One entry of loginHistory. -/
structure LoginRecord where
  timestamp : Nat
  ip : String
  userAgent : String
  success : Bool
  failureReason : Option String
deriving Repr, DecidableEq

/-- One entry of refreshTokens: the signed token value and its issue time. -/
structure RefreshTokenEntry where
  token : String
  createdAt : Nat
deriving Repr, DecidableEq

/-- The persisted User document (the fields the auth engine touches).
The password field holds the bcrypt hash; it is absent for federated
accounts. -/
structure UserDoc where
  id : String
  name : String
  email : String
  password : Option String
  isVerified : Bool
  accountStatus : String
  accountLockout : AccountLockout
  twoFactorAuth : TwoFactorAuth
  refreshTokens : List RefreshTokenEntry
  loginHistory : List LoginRecord
  lastLogin : Option Nat
  updatedAt : Nat
deriving Repr, DecidableEq

/-- JS slice(-n): the last n elements. -/
def jsSliceLast (n : Nat) (l : List RefreshTokenEntry) : List RefreshTokenEntry :=
  l.drop (l.length - n)

/-- JS slice(-n) on the login history. -/
def jsSliceLastLogin (n : Nat) (l : List LoginRecord) : List LoginRecord :=
  l.drop (l.length - n)

/-! ## Instance methods of the User model -/

namespace UserDoc

/-- comparePassword (User.model.js lines 980 to 983): false when no hash is
stored, otherwise bcrypt.compare, abstracted as the function bcmp from
candidate and stored hash to Bool. -/
def comparePassword (bcmp : String → String → Bool) (candidate : String) (u : UserDoc) : Bool :=
  match u.password with
  | none => false
  | some h => bcmp candidate h

/-- addRefreshToken (lines 998 to 1008): push, then keep only the last 5. -/
def addRefreshToken (now : Nat) (token : String) (u : UserDoc) : UserDoc :=
  let pushed := u.refreshTokens ++ [⟨token, now⟩]
  { u with refreshTokens := if pushed.length > 5 then jsSliceLast 5 pushed else pushed }

/-- removeRefreshToken (lines 1011 to 1015): drop every entry whose token
equals the argument. -/
def removeRefreshToken (token : String) (u : UserDoc) : UserDoc :=
  { u with refreshTokens := u.refreshTokens.filter (fun e => e.token != token) }

/-- recordLogin (lines 1068 to 1088): append a login record, keep the last 20. -/
def recordLogin (now : Nat) (ip ua : String) (success : Bool) (reason : Option String) (u : UserDoc) : UserDoc :=
  let pushed := u.loginHistory ++ [⟨now, ip, ua, success, reason⟩]
  { u with loginHistory := if pushed.length > 20 then jsSliceLastLogin 20 pushed else pushed }

/-- handleFailedLogin (lines 1091 to 1100): increment the account-lockout
counter and set a 30-minute lock once it reaches 5. -/
def handleFailedLogin (now : Nat) (u : UserDoc) : UserDoc :=
  let fa := u.accountLockout.failedAttempts + 1
  { u with accountLockout :=
      { failedAttempts := fa
        lockUntil := if fa >= 5 then some (now + 30 * 60 * 1000) else u.accountLockout.lockUntil } }

/-- resetFailedAttempts (lines 1103 to 1107). -/
def resetFailedAttempts (u : UserDoc) : UserDoc :=
  { u with accountLockout := { failedAttempts := 0, lockUntil := none } }

/-- The isLocked virtual (lines 936 to 940): locked while lockUntil is in
the future. -/
def isLocked (now : Nat) (u : UserDoc) : Bool :=
  match u.accountLockout.lockUntil with
  | none => false
  | some t => now < t

/-- Update the first trusted device carrying the given id, as the
find-and-mutate in addTrustedDevice does. -/
def updateFirstDevice (deviceId : String) (now : Nat) : List TrustedDevice → List TrustedDevice
  | [] => []
  | d :: ds =>
      if d.deviceId == deviceId then { d with lastUsed := now, isActive := true } :: ds
      else d :: updateFirstDevice deviceId now ds

/-- addTrustedDevice (lines 1125 to 1148): refresh an existing entry with
the same fingerprint, otherwise append a new active entry. -/
def addTrustedDevice (now : Nat) (deviceId deviceName ua ip : String) (u : UserDoc) : UserDoc :=
  let devices := u.twoFactorAuth.trustedDevices
  { u with twoFactorAuth :=
      { u.twoFactorAuth with trustedDevices :=
          if (devices.any (fun d => d.deviceId == deviceId)) then
            updateFirstDevice deviceId now devices
          else
            devices ++ [⟨deviceId, deviceName, ua, ip, now, now, true⟩] } }

/-- isDeviceTrusted (lines 1151 to 1155): some active entry carries the id. -/
def isDeviceTrusted (deviceId : String) (u : UserDoc) : Bool :=
  u.twoFactorAuth.trustedDevices.any (fun d => d.deviceId == deviceId && d.isActive)

/-- updateTwoFactorUsage (lines 1158 to 1162). -/
def updateTwoFactorUsage (now : Nat) (u : UserDoc) : UserDoc :=
  { u with twoFactorAuth :=
      { u.twoFactorAuth with lastUsed := some now, totalUsage := u.twoFactorAuth.totalUsage + 1 } }

/-- handleTwoFactorFailedAttempt (lines 1165 to 1174): increment the
second-factor counter and set a 15-minute lock once it reaches 5. -/
def handleTwoFactorFailedAttempt (now : Nat) (u : UserDoc) : UserDoc :=
  let fa := u.twoFactorAuth.failedAttempts + 1
  { u with twoFactorAuth :=
      { u.twoFactorAuth with
          failedAttempts := fa
          lockUntil := if fa >= 5 then some (now + 15 * 60 * 1000) else u.twoFactorAuth.lockUntil } }

/-- resetTwoFactorFailedAttempts (lines 1177 to 1181). -/
def resetTwoFactorFailedAttempts (u : UserDoc) : UserDoc :=
  { u with twoFactorAuth :=
      { u.twoFactorAuth with failedAttempts := 0, lockUntil := none } }

/-- isTwoFactorLocked (lines 1184 to 1188). -/
def isTwoFactorLocked (now : Nat) (u : UserDoc) : Bool :=
  match u.twoFactorAuth.lockUntil with
  | none => false
  | some t => now < t

end UserDoc

/-- Mongoose save: write the in-memory document back over every stored
document with the same id. -/
def saveUser (db : List UserDoc) (u : UserDoc) : List UserDoc :=
  db.map (fun v => if v.id == u.id then u else v)

/-! ## twoFactor.service.js -/

/-- generateDeviceId (twoFactor.service.js lines 273 to 280): SHA-256 of
the template string userAgent-ipAddress-Date.now(), truncated to the first
16 hex characters.  The wall-clock millisecond timestamp is an explicit
argument. -/
def generateDeviceId (userAgent ipAddress : String) (now : Nat) : String :=
  let deviceString := userAgent ++ ("-") ++ ipAddress ++ ("-") ++ toString now
  (sha256hex deviceString).take 16

/-- JS String.prototype.includes for a non-empty needle. -/
def jsIncludes (s needle : String) : Bool :=
  (s.splitOn needle).length > 1

/-- Device info derived by parseDeviceInfo (lines 285 to 321). -/
structure DeviceInfo where
  browser : String
  os : String
  deviceType : String
deriving Repr, DecidableEq

/-- parseDeviceInfo (twoFactor.service.js lines 285 to 321). -/
def parseDeviceInfo (userAgent : String) : DeviceInfo :=
  if userAgent == "" then ⟨"Unknown", "Unknown", "desktop"⟩
  else
    let browser :=
      if jsIncludes userAgent ("Chrome") then ("Chrome")
      else if jsIncludes userAgent ("Firefox") then ("Firefox")
      else if jsIncludes userAgent ("Safari") then ("Safari")
      else if jsIncludes userAgent ("Edge") then ("Edge")
      else ("Unknown")
    let os :=
      if jsIncludes userAgent ("Windows") then ("Windows")
      else if (jsIncludes userAgent ("macOS") || jsIncludes userAgent ("Mac OS")) then ("macOS")
      else if jsIncludes userAgent ("Linux") then ("Linux")
      else if jsIncludes userAgent ("Android") then ("Android")
      else if (jsIncludes userAgent ("iOS") || jsIncludes userAgent ("iPhone") || jsIncludes userAgent ("iPad")) then ("iOS")
      else ("Unknown")
    let deviceType :=
      if (jsIncludes userAgent ("Mobile") || jsIncludes userAgent ("Android")) then ("mobile")
      else if (jsIncludes userAgent ("Tablet") || jsIncludes userAgent ("iPad")) then ("tablet")
      else ("desktop")
    ⟨browser, os, deviceType⟩

/-- Result object of verifyBackupCode: valid flag and matched index
(JS uses -1 for no match, modelled as none). -/
structure BackupCheck where
  valid : Bool
  codeIndex : Option Nat
deriving Repr, DecidableEq

/-- verifyBackupCode (twoFactor.service.js lines 233 to 267): clean the
input (trim, upper-case), hash it with SHA-256, and find the first stored
entry with that hash that is not yet used. -/
def verifyBackupCode (inputCode : String) (storedCodes : List BackupCode) : BackupCheck :=
  if (inputCode == "" || storedCodes.isEmpty) then ⟨false, none⟩
  else
    let hashedInput := sha256hex (jsToUpper inputCode.trim)
    match jsFindIndex (fun c => !c.used && c.code == hashedInput) storedCodes with
    | none => ⟨false, none⟩
    | some i => ⟨true, some i⟩

/-- Modelled from the spec: hashBackupCode is called in verify2FALogin
(twoFactor.controller.js line 556) but is defined nowhere under src.
Section 4.4 of the spec requires recovery codes to be compared
content-addressed through the one-way hash used at generation, which
generateBackupCodes (twoFactor.service.js lines 195 to 228) implements as
the hex SHA-256 of the plaintext code. -/
def hashBackupCode (code : String) : String := sha256hex code

/-- isTwoFactorSetupExpired (twoFactor.service.js lines 332 to 339):
expired when no pending secret exists or when more than 10 minutes have
passed since the document's updatedAt timestamp (the enrollment start
written by enable2FA). -/
def isTwoFactorSetupExpired (now : Nat) (u : UserDoc) : Bool :=
  match u.twoFactorAuth.tempSecret with
  | none => true
  | some _ => now - u.updatedAt > 10 * 60 * 1000

/-- encrypt2FASecret (twoFactor.service.js lines 23 to 54).  The AES-256-CBC
cipher keyed by the process key is abstracted as encStr from plaintext to
ciphertext bytes; the function is otherwise literal: key presence and
length checks, then the hex of 16 random iv bytes (generated but never fed
to createCipher), a colon, and the hex ciphertext. -/
def encrypt2FASecret (encStr : String → List Nat) (key : String) (ivBytes : List Nat)
    (secret : String) : Except AppError String :=
  if key == "" then
    .error ⟨"TWO_FACTOR_ENCRYPTION_KEY not configured in environment variables", 500⟩
  else if key.length < 32 then
    .error ⟨"TWO_FACTOR_ENCRYPTION_KEY must be at least 32 characters", 500⟩
  else
    .ok (hexEncode ivBytes ++ (":") ++ hexEncode (encStr secret))

/-- decrypt2FASecret (twoFactor.service.js lines 59 to 81): split at
colons, shift off the iv part (decoded from hex but unused by
createDecipher), rejoin the rest with colons, and decipher.  The composite
of createDecipher and the hex-to-utf8 conversion is abstracted as decStr
from ciphertext bytes to plaintext. -/
def decrypt2FASecret (decStr : List Nat → String) (key : String)
    (encryptedSecret : String) : Except AppError String :=
  if key == "" then
    .error ⟨"TWO_FACTOR_ENCRYPTION_KEY not configured", 500⟩
  else
    let textParts := jsSplitColon encryptedSecret
    let encryptedText := String.mk (jsJoinColon (textParts.drop 1))
    .ok (decStr (hexDecode encryptedText))

/-- verifyTotpToken applied to a possibly absent encrypted secret
(twoFactor.service.js lines 149 to 188 return false on a missing secret);
the cryptographic TOTP check itself is abstracted as vtotp. -/
def verifyTotpOpt (vtotp : String → String → Bool) (token : String) : Option String → Bool
  | none => false
  | some s => vtotp token s

/-! ## Controller outcome types -/

/-- The three response shapes of the login flow. -/
inductive AuthOutcome where
  | failure : AppError → AuthOutcome
  | requires2FA : String → String → AuthOutcome
  | session : String → String → AuthOutcome
deriving Repr, DecidableEq

/-- Outcome of operations that answer with a bare success flag. -/
inductive OpResult where
  | ok : OpResult
  | err : AppError → OpResult
deriving Repr, DecidableEq

/-- Outcome of the refresh-token endpoint. -/
inductive RefreshOutcome where
  | ok : String → RefreshOutcome
  | err : AppError → RefreshOutcome
deriving Repr, DecidableEq

/-! ## Login controller, 2FA-aware variant (src/unnamed/part_007 lines 253 to 417)

The bcrypt comparison (bcmp), the speakeasy TOTP check (vtotp) and the
token minting are abstract function parameters.  The call
user.generateTokens() at line 379 resolves to no method defined anywhere
under src; genTokens is modelled from the spec (section 4.7 Token Issuer:
issue mints an access and a refresh token for the account).  Failure
paths call recordLogin on the in-memory document without a save, so the
stored state is only written on the paths that reach user.save(): the
invalid-second-factor path and the success path.
-/

/-- The account state persisted by the success path of the part_007 login
(lines 376 to 388): the fresh refresh token pushed and the successful
login recorded. -/
def loginSavedUser (genTokens : UserDoc → String × String) (now : Nat) (ua ip : String)
    (user : UserDoc) : UserDoc :=
  let tokens := genTokens user
  let u1 : UserDoc := { user with refreshTokens := user.refreshTokens ++ [⟨tokens.2, now⟩] }
  u1.recordLogin now ip ua true (some ("Login successful"))

/-- STEP 5 and 6 of the part_007 login (lines 376 to 412): mint the token
pair, push the refresh token, record the successful login and save. -/
def loginFinish (genTokens : UserDoc → String × String) (now : Nat) (ua ip : String)
    (db : List UserDoc) (user : UserDoc) : AuthOutcome × List UserDoc :=
  let tokens := genTokens user
  (.session tokens.1 tokens.2, saveUser db (loginSavedUser genTokens now ua ip user))

/-- The account state after a successful in-login TOTP verification
(part_007 lines 352 to 372): failed attempts reset, usage updated, and the
device trusted when requested. -/
def totpVerifiedUser (now : Nat) (deviceId deviceName ua ip : String) (trustDevice : Bool)
    (user : UserDoc) : UserDoc :=
  let u1 := (user.resetTwoFactorFailedAttempts).updateTwoFactorUsage now
  if trustDevice then u1.addTrustedDevice now deviceId deviceName ua ip else u1

def login (bcmp vtotp : String → String → Bool) (genTokens : UserDoc → String × String)
    (now : Nat) (ua ip : String) (db : List UserDoc)
    (email password : String) (totpToken : Option String) (trustDevice : Bool) :
    AuthOutcome × List UserDoc :=
  if (email == "" || password == "") then
    (.failure ⟨"Please provide email and password", 400⟩, db)
  else
    match db.find? (fun u => u.email == email) with
    | none => (.failure ⟨"Invalid email or password", 401⟩, db)
    | some user =>
      if !(user.comparePassword bcmp password) then
        -- recordLogin(req, false, Invalid password) mutates only the
        -- in-memory document; no save follows, so db is returned as is
        (.failure ⟨"Invalid email or password", 401⟩, db)
      else
        if user.twoFactorAuth.isEnabled then
          let deviceId := generateDeviceId ua ip now
          let isTrustedDevice := user.isDeviceTrusted deviceId
          if !isTrustedDevice then
            match totpToken with
            | none =>
                -- recordLogin(req, false, 2FA token required), not saved
                (.requires2FA user.id user.email, db)
            | some t =>
                if !(verifyTotpOpt vtotp t user.twoFactorAuth.secret) then
                  let u1 := user.handleTwoFactorFailedAttempt now
                  -- handleTwoFactorFailedAttempt is followed by save;
                  -- the recordLogin after it is not saved
                  (.failure ⟨"Invalid two-factor authentication code", 401⟩, saveUser db u1)
                else
                  let info := parseDeviceInfo ua
                  loginFinish genTokens now ua ip db
                    (totpVerifiedUser now deviceId (info.browser ++ (" on ") ++ info.os)
                      ua ip trustDevice user)
          else
            loginFinish genTokens now ua ip db user
        else
          loginFinish genTokens now ua ip db user

/-! ## Login controller, basic variant (auth.controller.js lines 249 to 310) -/

/-- login of auth.controller.js: email lookup through findByEmail
(lower-cased key, User.model.js lines 1192 to 1194), verification gate,
password check, then token issuance.  jwtService.generateTokenPair is
called at line 281 but the jwt.service.js snapshot under src defines only
generateAccessToken and generateRefreshToken; genTokenPair is modelled
from the spec (section 4.7: issue mints an access and a refresh token). -/
def loginBasic (bcmp : String → String → Bool) (genTokenPair : UserDoc → String × String)
    (now : Nat) (db : List UserDoc) (email password : String) :
    AuthOutcome × List UserDoc :=
  if (email == "" || password == "") then
    (.failure ⟨"Email and Password are required", 400⟩, db)
  else
    match db.find? (fun u => u.email == jsToLower email) with
    | none => (.failure ⟨"Invalid email or password", 401⟩, db)
    | some user =>
      if !user.isVerified then
        (.failure ⟨"Account not verified. Please verify your email.", 401⟩, db)
      else if !(user.comparePassword bcmp password) then
        (.failure ⟨"Invalid email or password", 401⟩, db)
      else
        let u1 := { user with lastLogin := some now }
        let tokens := genTokenPair u1
        let u2 := u1.addRefreshToken now tokens.2
        (.session tokens.1 tokens.2, saveUser db u2)

/-! ## Logout (auth.controller.js lines 318 to 348, identical in part_007
lines 425 to 455) -/

/-- logout: reject a missing token, otherwise find the account holding the
presented refresh token, filter out every entry equal to it, and answer
with success whether or not an account was found. -/
def logout (db : List UserDoc) (refreshToken : String) : OpResult × List UserDoc :=
  if refreshToken == "" then
    (.err ⟨"Refresh token is required", 400⟩, db)
  else
    match db.find? (fun u => u.refreshTokens.any (fun e => e.token == refreshToken)) with
    | none => (.ok, db)
    | some user =>
        let u1 := { user with
          refreshTokens := user.refreshTokens.filter (fun e => e.token != refreshToken) }
        (.ok, saveUser db u1)

/-! ## Refresh token (part_007 lines 463 to 525; the auth.controller.js
variant at lines 356 to 398 performs the same membership check) -/

/-- refreshToken: verify the presented token's signature and expiry
(jwtService.verifyRefreshToken, absent from the jwt.service.js snapshot
under src; verifyRefresh is modelled from the spec, section 4.7:
verifyRefresh yields the decoded account id or fails on an expired or
invalid token), load the account, require the token to be a member of the
stored refresh-token set, and only then mint a new access token. -/
def refreshTokenController (verifyRefresh : String → Option String)
    (genAccess : UserDoc → String) (db : List UserDoc) (refreshToken : String) :
    RefreshOutcome :=
  if refreshToken == "" then
    .err ⟨"Refresh token is required", 400⟩
  else
    match verifyRefresh refreshToken with
    | none => .err ⟨"Invalid or expired refresh token", 401⟩
    | some userId =>
      match db.find? (fun u => u.id == userId) with
      | none => .err ⟨"Invalid Refresh Token", 401⟩
      | some user =>
        if !(user.refreshTokens.any (fun e => e.token == refreshToken)) then
          .err ⟨"Invalid Refresh Token", 401⟩
        else
          .ok (genAccess user)

/-! ## Two-factor controller (twoFactor.controller.js) -/

/-- verify2FASetup (twoFactor.controller.js lines 111 to 219): refetch the
user with the pending secret, require a token and a pending secret, clear
the pending state and fail if the 10-minute window has elapsed, verify the
token against the pending secret, and on success promote the pending
secret to the permanent one and reset every counter. -/
def verify2FASetup (vtotp : String → String → Bool) (now : Nat)
    (db : List UserDoc) (userId : String) (token : String) :
    OpResult × List UserDoc :=
  match db.find? (fun u => u.id == userId) with
  | none => (.err ⟨"User not found", 404⟩, db)
  | some user =>
    if token == "" then
      (.err ⟨"Please provide a verification token", 400⟩, db)
    else
      match user.twoFactorAuth.tempSecret with
      | none => (.err ⟨"No 2FA setup in progress. Please start setup first.", 400⟩, db)
      | some tempSecret =>
        if isTwoFactorSetupExpired now user then
          let u1 := { user with twoFactorAuth :=
            { user.twoFactorAuth with tempSecret := none, backupCodes := [] } }
          (.err ⟨"2FA setup has expired. Please start setup again.", 400⟩, saveUser db u1)
        else if !(vtotp token tempSecret) then
          (.err ⟨"Invalid verification code. Please try again.", 400⟩, db)
        else
          let u1 := { user with
            twoFactorAuth :=
              { user.twoFactorAuth with
                  isEnabled := true
                  secret := some tempSecret
                  tempSecret := none
                  setupAt := some now
                  lastUsed := none
                  totalUsage := 0
                  failedAttempts := 0
                  lockUntil := none }
            updatedAt := now }
          (.ok, saveUser db u1)

/-- The findIndex predicate of the backup-code branch of verify2FALogin
(twoFactor.controller.js lines 555 to 557): the first stored entry that is
not used and whose hash equals the hash of the submitted token. -/
def backupMatchIdx (token : String) (codes : List BackupCode) : Option Nat :=
  jsFindIndex (fun bc => !bc.used && bc.code == hashBackupCode token) codes

/-- Mark the backup code at the given index as used now, the in-place
mutation at twoFactor.controller.js lines 564 and 565. -/
def markBackupUsed (now : Nat) : Nat → List BackupCode → List BackupCode
  | _, [] => []
  | 0, c :: cs => { c with used := true, usedAt := some now } :: cs
  | n + 1, c :: cs => c :: markBackupUsed now n cs

/-- Invalid-token arm of verify2FALogin (twoFactor.controller.js lines
571 to 593): count the failure, lock for 15 minutes once the counter
reaches 5, save, and answer with the locked or invalid-token failure. -/
def verify2FAInvalid (now : Nat) (db : List UserDoc) (user : UserDoc) :
    AuthOutcome × List UserDoc :=
  let fa := user.twoFactorAuth.failedAttempts + 1
  if fa >= 5 then
    let u1 := { user with twoFactorAuth :=
      { user.twoFactorAuth with
          failedAttempts := fa
          lockUntil := some (now + 15 * 60 * 1000) } }
    (.failure ⟨"Account locked due to too many failed 2FA attempts. Try again in 15 minutes.", 423⟩,
     saveUser db u1)
  else
    let u1 := { user with twoFactorAuth :=
      { user.twoFactorAuth with failedAttempts := fa } }
    (.failure ⟨"Invalid 2FA token", 401⟩, saveUser db u1)

/-- The account state written by the success arm of verify2FALogin
(twoFactor.controller.js lines 595 to 629): the matched backup code (if
any) marked used, the failure state reset, the device trusted on request,
usage updated and the successful login recorded. -/
def completed2FAUser (newDeviceId : String) (now : Nat) (ua ip : String)
    (user : UserDoc) (backupIdx : Option Nat) (trustDevice : Bool) : UserDoc :=
  let codes1 :=
    match backupIdx with
    | some i => markBackupUsed now i user.twoFactorAuth.backupCodes
    | none => user.twoFactorAuth.backupCodes
  let devices1 :=
    if trustDevice then
      user.twoFactorAuth.trustedDevices ++
        [⟨newDeviceId, ("Device from ") ++ ip, ua, ip, now, now, true⟩]
    else user.twoFactorAuth.trustedDevices
  let u1 := { user with twoFactorAuth :=
    { user.twoFactorAuth with
        backupCodes := codes1
        trustedDevices := devices1
        failedAttempts := 0
        lockUntil := none
        lastUsed := some now
        totalUsage := user.twoFactorAuth.totalUsage + 1 } }
  let reason := match backupIdx with
    | some _ => "2FA backup code"
    | none => "2FA TOTP"
  u1.recordLogin now ip ua true (some reason)

/-- Success arm of verify2FALogin: write the completed state back and
issue the token pair. -/
def verify2FAComplete (issueTokens : UserDoc → String × String) (newDeviceId : String)
    (now : Nat) (ua ip : String) (db : List UserDoc) (user : UserDoc)
    (backupIdx : Option Nat) (trustDevice : Bool) : AuthOutcome × List UserDoc :=
  let u2 := completed2FAUser newDeviceId now ua ip user backupIdx trustDevice
  let tokens := issueTokens u2
  (.session tokens.1 tokens.2, saveUser db u2)

/-- verify2FALogin (twoFactor.controller.js lines 503 to 671): second step
of the two-step login.  The TOTP check is the abstract vtotp (applied
through verifyTotpOpt, as verifyTotpToken returns false on a missing
secret).  issueTokens stands for generateTokens imported from
services/auth.service.js, a module absent from src, modelled from the spec
(section 4.7).  newDeviceId stands for the identifier the trusted-device
branch mints (the source calls mongoose.Types.ObjectId() without importing
mongoose); the pushed entry is modelled by its schema image. -/
def verify2FALogin (vtotp : String → String → Bool) (issueTokens : UserDoc → String × String)
    (newDeviceId : String) (now : Nat) (ua ip : String) (db : List UserDoc)
    (tempUserId twoFactorToken : String) (trustDevice : Bool) :
    AuthOutcome × List UserDoc :=
  if (tempUserId == "" || twoFactorToken == "") then
    (.failure ⟨"Please provide tempUserId and twoFactorToken", 400⟩, db)
  else
    match db.find? (fun u => u.id == tempUserId) with
    | none => (.failure ⟨"User not found", 404⟩, db)
    | some user =>
      if !user.twoFactorAuth.isEnabled then
        (.failure ⟨"2FA is not enabled for this user", 400⟩, db)
      else if user.accountStatus != "active" then
        (.failure ⟨"Account is not active. Please contact support.", 401⟩, db)
      else
        let totpValid := verifyTotpOpt vtotp twoFactorToken user.twoFactorAuth.secret
        let backupIdx := if totpValid then none
                         else backupMatchIdx twoFactorToken user.twoFactorAuth.backupCodes
        match totpValid, backupIdx with
        | false, none => verify2FAInvalid now db user
        | _, _ => verify2FAComplete issueTokens newDeviceId now ua ip db user backupIdx trustDevice

/-! ## Helper lemmas about the store -/

theorem mem_saveUser {db : List UserDoc} {u v : UserDoc} (hv : v ∈ saveUser db u) :
    v = u ∨ (v ∈ db ∧ (v.id == u.id) = false) := by
  rcases List.mem_map.mp hv with ⟨w, hw, hfw⟩
  by_cases h : (w.id == u.id) = true
  · left
    rw [if_pos h] at hfw
    exact hfw.symm
  · right
    rw [if_neg h] at hfw
    subst hfw
    exact ⟨hw, by simpa using h⟩

theorem mem_saveUser_of_ne {db : List UserDoc} {u v : UserDoc}
    (hv : v ∈ db) (hne : v.id ≠ u.id) : v ∈ saveUser db u := by
  refine List.mem_map.mpr ⟨v, hv, ?_⟩
  rw [if_neg (by simpa using hne)]

theorem self_mem_saveUser {db : List UserDoc} {u u' : UserDoc}
    (hu : u ∈ db) (hid : u'.id = u.id) : u' ∈ saveUser db u' := by
  refine List.mem_map.mpr ⟨u, hu, ?_⟩
  rw [if_pos (by simp [hid])]

theorem find?_saveUser_id {db : List UserDoc} {uid : String} {u u' : UserDoc}
    (hfind : db.find? (fun v => v.id == uid) = some u) (hid : u'.id = u.id) :
    (saveUser db u').find? (fun v => v.id == uid) = some u' := by
  have hu : (u.id == uid) = true := by
    have h := List.find?_some hfind
    simpa using h
  have hu' : (u'.id == uid) = true := by
    simp only [beq_iff_eq] at hu ⊢
    rw [hid, hu]
  induction db with
  | nil => simp at hfind
  | cons v vs ih =>
    by_cases hv : (v.id == uid) = true
    · simp only [List.find?, hv] at hfind
      have huv : v = u := by injection hfind
      subst huv
      have hhead : (v.id == u'.id) = true := by
        simp only [beq_iff_eq]
        exact hid.symm
      simp only [saveUser, List.map_cons, if_pos hhead, List.find?, hu']
    · simp only [List.find?] at hfind
      rw [Bool.eq_false_iff.mpr hv] at hfind
      have tail := ih hfind
      by_cases hvid : (v.id == u'.id) = true
      · exfalso
        simp only [beq_iff_eq] at hvid hu
        exact hv (by simp only [beq_iff_eq]; rw [hvid, hid, hu])
      · simp only [saveUser, List.map_cons, if_neg hvid, List.find?,
          Bool.eq_false_iff.mpr hv]
        exact tail

theorem find?_saveUser_email {db : List UserDoc} {email : String} {u u' : UserDoc}
    (hfind : db.find? (fun v => v.email == email) = some u)
    (hid : u'.id = u.id) (hem : u'.email = u.email) :
    (saveUser db u').find? (fun v => v.email == email) = some u' := by
  have hu : (u.email == email) = true := by
    have h := List.find?_some hfind
    simpa using h
  have hu' : (u'.email == email) = true := by
    simp only [beq_iff_eq] at hu ⊢
    rw [hem, hu]
  induction db with
  | nil => simp at hfind
  | cons v vs ih =>
    by_cases hv : (v.email == email) = true
    · simp only [List.find?, hv] at hfind
      have huv : v = u := by injection hfind
      subst huv
      by_cases hvid : (v.id == u'.id) = true
      · simp only [saveUser, List.map_cons, if_pos hvid, List.find?, hu']
      · exfalso
        simp only [beq_iff_eq] at hvid
        exact hvid (hid.symm)
    · simp only [List.find?] at hfind
      rw [Bool.eq_false_iff.mpr hv] at hfind
      have tail := ih hfind
      by_cases hvid : (v.id == u'.id) = true
      · simp only [saveUser, List.map_cons, if_pos hvid, List.find?, hu']
      · simp only [saveUser, List.map_cons, if_neg hvid, List.find?,
          Bool.eq_false_iff.mpr hv]
        exact tail

/-! ## Claim C1: account lockout after repeated password failures -/

/-- Stand-in bcrypt comparison for concrete scenarios: the stored hash is
taken to be the plaintext. -/
def plainCompare : String → String → Bool := fun candidate hash => candidate == hash

/-- TOTP checker that accepts nothing, for scenarios that never reach it. -/
def noTotp : String → String → Bool := fun _ _ => false

/-- Fixed token issuer for concrete scenarios. -/
def fixedTokens : UserDoc → String × String := fun _ => ("acc", "ref")

/-- A verified account with password hash p@ss1234, no second factor, and
clean lockout state. -/
def c1User : UserDoc :=
  { id := "u1", name := "Bob", email := "bob@example.com",
    password := some ("p@ss1234"), isVerified := true, accountStatus := "active",
    accountLockout := ⟨0, none⟩,
    twoFactorAuth := ⟨false, none, none, [], [], none, none, 0, 0, none⟩,
    refreshTokens := [], loginHistory := [], lastLogin := none, updatedAt := 0 }

/-- The store holding exactly that account. -/
def c1Db : List UserDoc := [c1User]

/-- One login attempt against the part_007 controller for that account. -/
def c1Attempt (db : List UserDoc) (pw : String) (now : Nat) : AuthOutcome × List UserDoc :=
  login plainCompare noTotp fixedTokens now ("UA") ("1.1.1.1") db ("bob@example.com") pw none false

/-- The store after five consecutive wrong-password attempts. -/
def c1AfterFive : List UserDoc :=
  (List.range 5).foldl (fun db i => (c1Attempt db ("wrongpass") (i + 1)).2) c1Db

/-- C1.  The claim states that five consecutive wrong-password logins lock
the account for at least 30 minutes and that a sixth attempt during the
lock window fails with the AccountLocked error even with the correct
password.  The login controller contradicts this: it never calls
handleFailedLogin and never consults the isLocked virtual, so after five
wrong-password attempts the persisted failed-attempt counter is still 0,
no lock is set, and the sixth attempt with the correct password succeeds
with a full session instead of failing. -/
theorem c1_lockout_never_applied :
    (c1Attempt c1Db ("wrongpass") 1).1 = AuthOutcome.failure ⟨"Invalid email or password", 401⟩
    ∧ c1AfterFive = c1Db
    ∧ c1AfterFive.map (fun u => u.accountLockout.failedAttempts) = [0]
    ∧ c1AfterFive.map (fun u => u.isLocked 6) = [false]
    ∧ (c1Attempt c1AfterFive ("p@ss1234") 6).1 = AuthOutcome.session ("acc") ("ref") := by
  decide

/-! ## Claim C4: correct password with enabled second factor and no code -/

/-- C4.  For an account with the second factor enabled and no matching
active trusted device, a login with the correct password and no TOTP code
returns exactly the SecondFactorRequired checkpoint carrying the account
reference and email, and the store is returned unchanged: no access or
refresh token is persisted and neither the account-lockout counter nor
the second-factor failure counter moves. -/
theorem c4_second_factor_checkpoint
    (bcmp vtotp : String → String → Bool) (gen : UserDoc → String × String)
    (now : Nat) (ua ip : String) (db : List UserDoc) (email pw : String)
    (trust : Bool) (u : UserDoc)
    (hemail : email ≠ "") (hpw : pw ≠ "")
    (hfind : db.find? (fun v => v.email == email) = some u)
    (hcmp : u.comparePassword bcmp pw = true)
    (hen : u.twoFactorAuth.isEnabled = true)
    (hnt : u.isDeviceTrusted (generateDeviceId ua ip now) = false) :
    login bcmp vtotp gen now ua ip db email pw none trust
      = (AuthOutcome.requires2FA u.id u.email, db) := by
  have he1 : (email == "") = false := by simpa using hemail
  have hp1 : (pw == "") = false := by simpa using hpw
  simp [login, he1, hp1, hfind, hcmp, hen, hnt]

/-- An account with the second factor enabled and an empty trusted-device
list, for the C4 witness. -/
def c4User : UserDoc :=
  { id := "u2", name := "Ann", email := "ann@example.com",
    password := some ("p@ss1234"), isVerified := true, accountStatus := "active",
    accountLockout := ⟨0, none⟩,
    twoFactorAuth := ⟨true, some ("SECRET"), none, [], [], none, none, 0, 0, none⟩,
    refreshTokens := [], loginHistory := [], lastLogin := none, updatedAt := 0 }

/-- Witness for C4 at a concrete store and request. -/
theorem c4_second_factor_checkpoint_witness :
    ("ann@example.com" : String) ≠ ""
    ∧ ("p@ss1234" : String) ≠ ""
    ∧ [c4User].find? (fun v => v.email == ("ann@example.com")) = some c4User
    ∧ c4User.comparePassword plainCompare ("p@ss1234") = true
    ∧ c4User.twoFactorAuth.isEnabled = true
    ∧ c4User.isDeviceTrusted (generateDeviceId ("UA") ("1.1.1.1") 1000) = false
    ∧ login plainCompare noTotp fixedTokens 1000 ("UA") ("1.1.1.1") [c4User]
        ("ann@example.com") ("p@ss1234") none false
      = (AuthOutcome.requires2FA ("u2") ("ann@example.com"), [c4User]) :=
  ⟨by decide, by decide, by decide, by decide, by decide, by decide,
   c4_second_factor_checkpoint plainCompare noTotp fixedTokens 1000 ("UA") ("1.1.1.1")
     [c4User] ("ann@example.com") ("p@ss1234") false c4User
     (by decide) (by decide) (by decide) (by decide) (by decide) (by decide)⟩

/-! ## Claim C3: unknown identifier vs wrong password -/

/-- An existing but unverified account used to separate the two failure
paths of the basic login controller. -/
def c3User : UserDoc :=
  { id := "u3", name := "Carl", email := "carl@example.com",
    password := some ("rightpass"), isVerified := false, accountStatus := "active",
    accountLockout := ⟨0, none⟩,
    twoFactorAuth := ⟨false, none, none, [], [], none, none, 0, 0, none⟩,
    refreshTokens := [], loginHistory := [], lastLogin := none, updatedAt := 0 }

/-- Counterexample to C3 as stated.  In the basic login controller the
verification gate answers before the password is examined, so an attempt
against an existing unverified account with a wrong password produces a
failure different from the unknown-identifier failure, and the caller can
tell the two cases apart. -/
theorem c3_unverified_account_distinguishable :
    (loginBasic plainCompare fixedTokens 5 [c3User] ("ghost@example.com") ("rightpass")).1
      = AuthOutcome.failure ⟨"Invalid email or password", 401⟩
    ∧ (loginBasic plainCompare fixedTokens 5 [c3User] ("carl@example.com") ("wrongpass")).1
      = AuthOutcome.failure ⟨"Account not verified. Please verify your email.", 401⟩
    ∧ (loginBasic plainCompare fixedTokens 5 [c3User] ("ghost@example.com") ("rightpass")).1
      ≠ (loginBasic plainCompare fixedTokens 5 [c3User] ("carl@example.com") ("wrongpass")).1 := by
  decide

/-- C3 amended.  Unknown identifier and wrong password return the one
identical failure object (message Invalid email or password, status 401)
in the 2FA-aware login controller for every account, and in the basic
login controller for every verified account; the unverified-account gate
of the basic controller is the only distinguishable case. -/
theorem c3_invalid_credentials_uniform
    (bcmp : String → String → Bool) (gen : UserDoc → String × String) (now : Nat)
    (db : List UserDoc) (email pw : String) (he : email ≠ "") (hp : pw ≠ "") :
    (db.find? (fun v => v.email == jsToLower email) = none →
      (loginBasic bcmp gen now db email pw).1
        = AuthOutcome.failure ⟨"Invalid email or password", 401⟩)
    ∧ (∀ u, db.find? (fun v => v.email == jsToLower email) = some u →
        u.isVerified = true → u.comparePassword bcmp pw = false →
        (loginBasic bcmp gen now db email pw).1
          = AuthOutcome.failure ⟨"Invalid email or password", 401⟩)
    ∧ (∀ vtotp ua ip totp trust, db.find? (fun v => v.email == email) = none →
        (login bcmp vtotp gen now ua ip db email pw totp trust).1
          = AuthOutcome.failure ⟨"Invalid email or password", 401⟩)
    ∧ (∀ vtotp ua ip totp trust u, db.find? (fun v => v.email == email) = some u →
        u.comparePassword bcmp pw = false →
        (login bcmp vtotp gen now ua ip db email pw totp trust).1
          = AuthOutcome.failure ⟨"Invalid email or password", 401⟩) := by
  have he1 : (email == "") = false := by simpa using he
  have hp1 : (pw == "") = false := by simpa using hp
  refine ⟨?_, ?_, ?_, ?_⟩
  · intro hnone
    simp [loginBasic, he1, hp1, hnone]
  · intro u hfind hver hcmp
    simp [loginBasic, he1, hp1, hfind, hver, hcmp]
  · intro vtotp ua ip totp trust hnone
    simp [login, he1, hp1, hnone]
  · intro vtotp ua ip totp trust u hfind hcmp
    simp [login, he1, hp1, hfind, hcmp]

/-- A verified account for the C3 witness. -/
def c3VerUser : UserDoc :=
  { c3User with id := "u4", email := "dana@example.com", isVerified := true }

/-- Witness for the amended C3 at a concrete store: the unknown-identifier
failure and the wrong-password failure against a verified account are the
same failure object, in both controller variants. -/
theorem c3_invalid_credentials_uniform_witness :
    ("ghost@example.com" : String) ≠ ""
    ∧ ("badpw" : String) ≠ ""
    ∧ (loginBasic plainCompare fixedTokens 5 [c3VerUser] ("ghost@example.com") ("badpw")).1
        = AuthOutcome.failure ⟨"Invalid email or password", 401⟩
    ∧ (loginBasic plainCompare fixedTokens 5 [c3VerUser] ("dana@example.com") ("badpw")).1
        = AuthOutcome.failure ⟨"Invalid email or password", 401⟩
    ∧ (login plainCompare noTotp fixedTokens 5 ("UA") ("1.1.1.1") [c3VerUser]
        ("ghost@example.com") ("badpw") none false).1
        = AuthOutcome.failure ⟨"Invalid email or password", 401⟩
    ∧ (login plainCompare noTotp fixedTokens 5 ("UA") ("1.1.1.1") [c3VerUser]
        ("dana@example.com") ("badpw") none false).1
        = AuthOutcome.failure ⟨"Invalid email or password", 401⟩ :=
  ⟨by decide, by decide,
   (c3_invalid_credentials_uniform plainCompare fixedTokens 5 [c3VerUser]
      ("ghost@example.com") ("badpw") (by decide) (by decide)).1 (by decide),
   (c3_invalid_credentials_uniform plainCompare fixedTokens 5 [c3VerUser]
      ("dana@example.com") ("badpw") (by decide) (by decide)).2.1 c3VerUser (by decide)
      (by decide) (by decide),
   (c3_invalid_credentials_uniform plainCompare fixedTokens 5 [c3VerUser]
      ("ghost@example.com") ("badpw") (by decide) (by decide)).2.2.1 noTotp ("UA")
      ("1.1.1.1") none false (by decide),
   (c3_invalid_credentials_uniform plainCompare fixedTokens 5 [c3VerUser]
      ("dana@example.com") ("badpw") (by decide) (by decide)).2.2.2 noTotp ("UA")
      ("1.1.1.1") none false c3VerUser (by decide) (by decide)⟩

/-! ## Claim C7: expired enrollment confirmation -/

/-- C7.  Confirming a pending enrollment more than 10 minutes after it was
started (the updatedAt timestamp written by the enrollment start) fails
with the EnrollmentExpired error and every stored state of the account
keeps the second factor disabled. -/
theorem c7_enrollment_expiry
    (vtotp : String → String → Bool) (now : Nat) (db : List UserDoc)
    (userId token : String) (u : UserDoc) (ts : String)
    (hfind : db.find? (fun v => v.id == userId) = some u)
    (htok : token ≠ "")
    (hts : u.twoFactorAuth.tempSecret = some ts)
    (hen : u.twoFactorAuth.isEnabled = false)
    (hexp : now - u.updatedAt > 10 * 60 * 1000) :
    (verify2FASetup vtotp now db userId token).1
      = OpResult.err ⟨"2FA setup has expired. Please start setup again.", 400⟩
    ∧ ∀ v ∈ (verify2FASetup vtotp now db userId token).2, v.id = u.id →
        v.twoFactorAuth.isEnabled = false := by
  have ht1 : (token == "") = false := by simpa using htok
  have hexp' : isTwoFactorSetupExpired now u = true := by
    simp [isTwoFactorSetupExpired, hts, hexp]
  constructor
  · simp [verify2FASetup, hfind, ht1, hts, hexp']
  · intro v hv hvid
    simp only [verify2FASetup, hfind, ht1, hts, hexp', Bool.false_eq_true, if_false,
      if_true, ite_true, ite_false] at hv
    rcases mem_saveUser hv with h | ⟨_, hne⟩
    · subst h
      exact hen
    · exfalso
      simp only [beq_eq_false_iff_ne, ne_eq] at hne
      exact hne hvid

/-- An account with a pending enrollment started at time 0, for the C7
witness. -/
def c7User : UserDoc :=
  { id := "u5", name := "Eve", email := "eve@example.com",
    password := some ("p@ss1234"), isVerified := true, accountStatus := "active",
    accountLockout := ⟨0, none⟩,
    twoFactorAuth := ⟨false, none, some ("TEMPSECRET"), [], [], none, none, 0, 0, none⟩,
    refreshTokens := [], loginHistory := [], lastLogin := none, updatedAt := 0 }

/-- Witness for C7: confirming 10 minutes and 1 millisecond after the
start fails as expired and leaves the second factor off. -/
theorem c7_enrollment_expiry_witness :
    [c7User].find? (fun v => v.id == ("u5")) = some c7User
    ∧ ("123456" : String) ≠ ""
    ∧ c7User.twoFactorAuth.tempSecret = some ("TEMPSECRET")
    ∧ c7User.twoFactorAuth.isEnabled = false
    ∧ 600001 - c7User.updatedAt > 10 * 60 * 1000
    ∧ (verify2FASetup noTotp 600001 [c7User] ("u5") ("123456")).1
        = OpResult.err ⟨"2FA setup has expired. Please start setup again.", 400⟩ :=
  ⟨by decide, by decide, by decide, by decide, by decide,
   (c7_enrollment_expiry noTotp 600001 [c7User] ("u5") ("123456") c7User ("TEMPSECRET")
      (by decide) (by decide) (by decide) (by decide) (by decide)).1⟩

/-! ## Claim C8: secret codec round trip -/

theorem hexVal_hexDigit {n : Nat} (h : n < 16) : hexVal (hexDigit n) = n := by
  interval_cases n <;> decide

theorem hexDigit_ne_colon (n : Nat) : hexDigit n ≠ ':' := by
  by_cases h : n < 16
  · interval_cases n <;> decide
  · have hlen : (16 : Nat) ≤ n := Nat.le_of_not_lt h
    unfold hexDigit
    rw [List.getD_eq_default]
    · decide
    · simpa using hlen

theorem colon_not_mem_hexChars (l : List Nat) :
    ':' ∉ l.foldr (fun b acc => hexDigit ((b / 16) % 16) :: hexDigit (b % 16) :: acc) [] := by
  induction l with
  | nil => simp
  | cons b rest ih =>
    simp only [List.foldr_cons]
    intro hmem
    rcases List.mem_cons.mp hmem with h | hmem1
    · exact hexDigit_ne_colon _ h.symm
    · rcases List.mem_cons.mp hmem1 with h | hmem2
      · exact hexDigit_ne_colon _ h.symm
      · exact ih hmem2

theorem colon_not_mem_hexEncode (l : List Nat) : ':' ∉ (hexEncode l).data :=
  fun h => colon_not_mem_hexChars l h

theorem hexDecode_hexEncode {l : List Nat} (h : ∀ b ∈ l, b < 256) :
    hexDecode (hexEncode l) = l := by
  induction l with
  | nil => decide
  | cons b rest ih =>
    have hb : b < 256 := h b (by simp)
    have hrest : ∀ x ∈ rest, x < 256 := fun x hx => h x (by simp [hx])
    simp only [hexDecode, hexEncode, List.foldr_cons, hexDecodeAux]
    have h1 : hexVal (hexDigit (b / 16 % 16)) = b / 16 % 16 :=
      hexVal_hexDigit (Nat.mod_lt _ (by omega))
    have h2 : hexVal (hexDigit (b % 16)) = b % 16 :=
      hexVal_hexDigit (Nat.mod_lt _ (by omega))
    rw [h1, h2]
    have hdiv : b / 16 % 16 = b / 16 := Nat.mod_eq_of_lt (by omega)
    have hb' : 16 * (b / 16) + b % 16 = b := by omega
    rw [hdiv, hb']
    have := ih hrest
    simp only [hexDecode, hexEncode] at this
    rw [this]

theorem splitColonAux_ne_nil (l acc : List Char) : splitColonAux l acc ≠ [] := by
  induction l generalizing acc with
  | nil => simp [splitColonAux]
  | cons c cs ih =>
    by_cases hc : c = ':'
    · simp [splitColonAux, hc]
    · simp only [splitColonAux, if_neg hc]
      exact ih _

theorem splitColonAux_append {l1 : List Char} (l2 acc : List Char) (h : ':' ∉ l1) :
    splitColonAux (l1 ++ ':' :: l2) acc = (acc.reverse ++ l1) :: splitColonAux l2 [] := by
  induction l1 generalizing acc with
  | nil => simp [splitColonAux]
  | cons c cs ih =>
    have hc : ¬(c = ':') := fun hc => h (by simp [hc])
    have hcs : ':' ∉ cs := fun hm => h (by simp [hm])
    simp only [List.cons_append, splitColonAux, if_neg hc, List.append_eq]
    rw [ih _ hcs]
    simp

theorem jsJoinColon_cons₂ (a b : List Char) (l : List (List Char)) :
    jsJoinColon (a :: b :: l) = a ++ ':' :: jsJoinColon (b :: l) := rfl

theorem jsJoinColon_splitColonAux (l acc : List Char) :
    jsJoinColon (splitColonAux l acc) = acc.reverse ++ l := by
  induction l generalizing acc with
  | nil => simp [splitColonAux, jsJoinColon]
  | cons c cs ih =>
    by_cases hc : c = ':'
    · subst hc
      rcases hsp : splitColonAux cs [] with _ | ⟨x, xs⟩
      · exact absurd hsp (splitColonAux_ne_nil cs [])
      · have h2 := ih ([])
        rw [hsp] at h2
        simp only [List.reverse_nil, List.nil_append] at h2
        simp only [splitColonAux, if_true]
        rw [hsp, jsJoinColon_cons₂, h2]
    · simp only [splitColonAux, if_neg hc]
      rw [ih (c :: acc)]
      simp

theorem mk_data_eq (s : String) : String.mk s.data = s := rfl

/-- C8.  Decrypting the encryption of a TOTP secret yields the secret
exactly.  The AES-256-CBC stream keyed by the process key is abstracted as
the pair encStr and decStr with the cipher inverse property as hypothesis;
what the theorem verifies is the codec framing the source adds around it:
the unused random-iv prefix, the colon separator, the hex transport
encoding, and the split-shift-join recovery in decrypt2FASecret return
the ciphertext to the decipher byte for byte. -/
theorem c8_codec_roundtrip
    (encStr : String → List Nat) (decStr : List Nat → String)
    (key : String) (iv : List Nat) (secret : String)
    (hkey : 32 ≤ key.length)
    (henc : ∀ b ∈ encStr secret, b < 256)
    (hdec : decStr (encStr secret) = secret) :
    ∃ ct, encrypt2FASecret encStr key iv secret = Except.ok ct
      ∧ decrypt2FASecret decStr key ct = Except.ok secret := by
  have hne : key ≠ "" := by
    intro h
    rw [h] at hkey
    simp at hkey
  have hne' : (key == "") = false := by simpa using hne
  have hlen : ¬(key.length < 32) := by omega
  refine ⟨hexEncode iv ++ (":") ++ hexEncode (encStr secret), ?_, ?_⟩
  · simp [encrypt2FASecret, hne', hlen]
  · simp only [decrypt2FASecret, hne', Bool.false_eq_true, if_false]
    have hdata : (hexEncode iv ++ (":") ++ hexEncode (encStr secret)).data
        = (hexEncode iv).data ++ ':' :: (hexEncode (encStr secret)).data := by
      have hcolon : (":" : String).data = [':'] := rfl
      rw [String.data_append, String.data_append, hcolon]
      simp
    rw [jsSplitColon, hdata, splitColonAux_append _ _ (colon_not_mem_hexEncode iv)]
    simp only [List.drop_one, List.tail_cons]
    rw [jsJoinColon_splitColonAux]
    simp only [List.reverse_nil, List.nil_append]
    rw [mk_data_eq, hexDecode_hexEncode henc, hdec]

/-- Witness for C8: a concrete cipher pair (identity on the byte image of
the secret) at a concrete key, iv and secret. -/
theorem c8_codec_roundtrip_witness :
    32 ≤ ("0123456789abcdef0123456789abcdef" : String).length
    ∧ (∀ b ∈ [83, 69, 67], b < 256)
    ∧ ((fun (_ : List Nat) => ("SEC" : String)) [83, 69, 67]) = ("SEC" : String)
    ∧ ∃ ct, encrypt2FASecret (fun _ => [83, 69, 67])
          ("0123456789abcdef0123456789abcdef") [255, 0] ("SEC") = Except.ok ct
        ∧ decrypt2FASecret (fun _ => ("SEC"))
          ("0123456789abcdef0123456789abcdef") ct = Except.ok ("SEC") :=
  ⟨by decide, by decide, by decide,
   c8_codec_roundtrip (fun _ => [83, 69, 67]) (fun _ => ("SEC"))
     ("0123456789abcdef0123456789abcdef") [255, 0] ("SEC")
     (by decide) (by decide) (by decide)⟩

/-! ## Claim C9: refresh honours only stored tokens -/

/-- C9.  The refresh endpoint answers with a new access token only when
the presented refresh token is a member of the owning account's stored
refresh-token set; a token absent from the set (removed or never added) is
rejected with the Invalid Refresh Token failure even when its signature
and expiry verify. -/
theorem c9_refresh_requires_membership
    (verifyRefresh : String → Option String) (genAccess : UserDoc → String)
    (db : List UserDoc) (tok : String) :
    (∀ a, refreshTokenController verifyRefresh genAccess db tok = RefreshOutcome.ok a →
      ∃ uid u, verifyRefresh tok = some uid
        ∧ db.find? (fun v => v.id == uid) = some u
        ∧ u.refreshTokens.any (fun e => e.token == tok) = true)
    ∧ (∀ uid u, tok ≠ "" → verifyRefresh tok = some uid →
        db.find? (fun v => v.id == uid) = some u →
        u.refreshTokens.any (fun e => e.token == tok) = false →
        refreshTokenController verifyRefresh genAccess db tok
          = RefreshOutcome.err ⟨"Invalid Refresh Token", 401⟩) := by
  constructor
  · intro a h
    by_cases h0 : (tok == "") = true
    · simp [refreshTokenController, h0] at h
    · rcases hv : verifyRefresh tok with _ | uid
      · simp [refreshTokenController, h0, hv] at h
      · rcases hf : db.find? (fun v => v.id == uid) with _ | u
        · simp [refreshTokenController, h0, hv, hf] at h
        · by_cases hm : (u.refreshTokens.any (fun e => e.token == tok)) = true
          · exact ⟨uid, u, rfl, hf, hm⟩
          · rw [Bool.not_eq_true] at hm
            simp [refreshTokenController, h0, hv, hf, hm] at h
  · intro uid u hne hv hf hm
    have hne' : (tok == "") = false := by simpa using hne
    simp [refreshTokenController, hne', hv, hf, hm]

/-- Witness account for C9 holding one stored refresh token. -/
def c9User : UserDoc :=
  { id := "u6", name := "Fay", email := "fay@example.com",
    password := some ("p@ss1234"), isVerified := true, accountStatus := "active",
    accountLockout := ⟨0, none⟩,
    twoFactorAuth := ⟨false, none, none, [], [], none, none, 0, 0, none⟩,
    refreshTokens := [⟨"storedTok", 1⟩], loginHistory := [],
    lastLogin := none, updatedAt := 0 }

/-- Witness for C9: a signature-valid token that is not in the stored set
is rejected, exercising the second conjunct at a concrete store. -/
theorem c9_refresh_requires_membership_witness :
    ("ghostTok" : String) ≠ ""
    ∧ (fun t => if t == ("ghostTok") then some ("u6") else none) ("ghostTok") = some ("u6")
    ∧ [c9User].find? (fun v => v.id == ("u6")) = some c9User
    ∧ c9User.refreshTokens.any (fun e => e.token == ("ghostTok")) = false
    ∧ refreshTokenController (fun t => if t == ("ghostTok") then some ("u6") else none)
        (fun _ => ("newAccess")) [c9User] ("ghostTok")
        = RefreshOutcome.err ⟨"Invalid Refresh Token", 401⟩ :=
  ⟨by decide, by decide, by decide, by decide,
   (c9_refresh_requires_membership (fun t => if t == ("ghostTok") then some ("u6") else none)
      (fun _ => ("newAccess")) [c9User] ("ghostTok")).2 ("u6") c9User
      (by decide) (by decide) (by decide) (by decide)⟩

/-! ## Claim C10: logout result and frame -/

/-- Store for the C10 counterexample: one account holding tokens. -/
def c10User : UserDoc :=
  { id := "u7", name := "Gil", email := "gil@example.com",
    password := some ("p@ss1234"), isVerified := true, accountStatus := "active",
    accountLockout := ⟨0, none⟩,
    twoFactorAuth := ⟨false, none, none, [], [], none, none, 0, 0, none⟩,
    refreshTokens := [⟨"tokA", 1⟩, ⟨"tokB", 2⟩, ⟨"tokA", 3⟩], loginHistory := [],
    lastLogin := none, updatedAt := 0 }

/-- A second account for the C10 frame condition. -/
def c10Other : UserDoc :=
  { c10User with id := "u8", email := "hal@example.com", refreshTokens := [⟨"tokC", 4⟩] }

/-- Counterexample to C10 as stated: for the empty refresh-token string
logout does not return Success; the missing-token guard answers with the
Refresh token is required failure (status 400). -/
theorem c10_empty_token_not_success :
    (logout [c10User, c10Other] ("")).1 = OpResult.err ⟨"Refresh token is required", 400⟩
    ∧ (logout [c10User, c10Other] ("")).1 ≠ OpResult.ok := by
  decide

/-- C10 amended.  For every non-empty refresh-token string, logout returns
Success, also when no account holds the token (store unchanged); when an
account holds it, exactly the entries equal to the token are removed from
that account, every other field of that account and every other account
are unchanged, and no account is dropped. -/
theorem c10_logout_success_and_frame (db : List UserDoc) (tok : String) (hne : tok ≠ "") :
    (logout db tok).1 = OpResult.ok
    ∧ (db.find? (fun u => u.refreshTokens.any (fun e => e.token == tok)) = none →
        (logout db tok).2 = db)
    ∧ (∀ u, db.find? (fun u => u.refreshTokens.any (fun e => e.token == tok)) = some u →
        (∀ v ∈ db, v.id ≠ u.id → v ∈ (logout db tok).2)
        ∧ (∃ u' ∈ (logout db tok).2, u'.id = u.id
            ∧ u'.refreshTokens = u.refreshTokens.filter (fun e => e.token != tok)
            ∧ (∀ e, e ∈ u'.refreshTokens ↔ e ∈ u.refreshTokens ∧ e.token ≠ tok)
            ∧ u'.name = u.name ∧ u'.email = u.email ∧ u'.password = u.password
            ∧ u'.isVerified = u.isVerified ∧ u'.accountStatus = u.accountStatus
            ∧ u'.accountLockout = u.accountLockout
            ∧ u'.twoFactorAuth = u.twoFactorAuth
            ∧ u'.loginHistory = u.loginHistory ∧ u'.lastLogin = u.lastLogin
            ∧ u'.updatedAt = u.updatedAt)
        ∧ (logout db tok).2.length = db.length) := by
  have hne' : (tok == "") = false := by simpa using hne
  refine ⟨?_, ?_, ?_⟩
  · rcases hf : db.find? (fun u => u.refreshTokens.any (fun e => e.token == tok)) with _ | u
    · simp [logout, hne', hf]
    · simp [logout, hne', hf]
  · intro hf
    simp [logout, hne', hf]
  · intro u hf
    have hu : u ∈ db := List.mem_of_find?_eq_some hf
    have hl2 : (logout db tok).2
        = saveUser db { u with refreshTokens := u.refreshTokens.filter (fun e => e.token != tok) } := by
      simp [logout, hne', hf]
    refine ⟨?_, ?_, ?_⟩
    · intro v hv hvne
      rw [hl2]
      exact mem_saveUser_of_ne hv hvne
    · refine ⟨{ u with refreshTokens := u.refreshTokens.filter (fun e => e.token != tok) },
        ?_, rfl, rfl, ?_, rfl, rfl, rfl, rfl, rfl, rfl, rfl, rfl, rfl, rfl⟩
      · rw [hl2]
        exact self_mem_saveUser hu rfl
      · intro e
        simp [List.mem_filter, bne_iff_ne]
    · rw [hl2]
      simp [saveUser]

/-- Witness for the amended C10 at a concrete store: removing tokA deletes
both entries carrying it, keeps tokB, and leaves the other account alone. -/
theorem c10_logout_success_and_frame_witness :
    ("tokA" : String) ≠ ""
    ∧ (logout [c10User, c10Other] ("tokA")).1 = OpResult.ok
    ∧ (logout [c10User, c10Other] ("tokA")).2.map (fun u => u.refreshTokens.map (fun e => e.token))
        = [["tokB"], ["tokC"]] :=
  ⟨by decide,
   (c10_logout_success_and_frame [c10User, c10Other] ("tokA") (by decide)).1,
   by decide⟩

/-! ## Claim C6: second-factor failure counter and lock -/

/-- C6.  Every failed second-factor verification increments the
second-factor failure counter; when the incremented counter reaches the
threshold of 5 a lock-until timestamp 15 minutes in the future is set
(and below the threshold the lock timestamp is untouched); and every
successful verification resets the counter to zero and clears the
lock-until timestamp.  Stated for the model methods
handleTwoFactorFailedAttempt and resetTwoFactorFailedAttempts and for the
two outcomes of the verify2FALogin controller. -/
theorem c6_second_factor_counter
    (vtotp : String → String → Bool) (issue : UserDoc → String × String)
    (ndi : String) (now : Nat) (ua ip : String) (db : List UserDoc)
    (uid tok : String) (u : UserDoc)
    (hid : uid ≠ "") (htok : tok ≠ "")
    (hfind : db.find? (fun v => v.id == uid) = some u)
    (hen : u.twoFactorAuth.isEnabled = true)
    (hstat : u.accountStatus = "active") :
    ((u.handleTwoFactorFailedAttempt now).twoFactorAuth.failedAttempts
        = u.twoFactorAuth.failedAttempts + 1
      ∧ (u.twoFactorAuth.failedAttempts + 1 >= 5 →
          (u.handleTwoFactorFailedAttempt now).twoFactorAuth.lockUntil
            = some (now + 15 * 60 * 1000))
      ∧ (u.twoFactorAuth.failedAttempts + 1 < 5 →
          (u.handleTwoFactorFailedAttempt now).twoFactorAuth.lockUntil
            = u.twoFactorAuth.lockUntil))
    ∧ ((u.resetTwoFactorFailedAttempts).twoFactorAuth.failedAttempts = 0
      ∧ (u.resetTwoFactorFailedAttempts).twoFactorAuth.lockUntil = none)
    ∧ (verifyTotpOpt vtotp tok u.twoFactorAuth.secret = false →
        backupMatchIdx tok u.twoFactorAuth.backupCodes = none →
        ∀ v ∈ (verify2FALogin vtotp issue ndi now ua ip db uid tok false).2,
          v.id = u.id →
            v.twoFactorAuth.failedAttempts = u.twoFactorAuth.failedAttempts + 1
            ∧ (u.twoFactorAuth.failedAttempts + 1 >= 5 →
                v.twoFactorAuth.lockUntil = some (now + 15 * 60 * 1000))
            ∧ (u.twoFactorAuth.failedAttempts + 1 < 5 →
                v.twoFactorAuth.lockUntil = u.twoFactorAuth.lockUntil))
    ∧ (verifyTotpOpt vtotp tok u.twoFactorAuth.secret = true →
        ∀ v ∈ (verify2FALogin vtotp issue ndi now ua ip db uid tok false).2,
          v.id = u.id →
            v.twoFactorAuth.failedAttempts = 0
            ∧ v.twoFactorAuth.lockUntil = none) := by
  have hid' : (uid == "") = false := by simpa using hid
  have htok' : (tok == "") = false := by simpa using htok
  have hstat' : (u.accountStatus != "active") = false := by simp [hstat]
  refine ⟨⟨?_, ?_, ?_⟩, ⟨?_, ?_⟩, ?_, ?_⟩
  · simp [UserDoc.handleTwoFactorFailedAttempt]
  · intro h5
    show (if u.twoFactorAuth.failedAttempts + 1 >= 5
          then some (now + 15 * 60 * 1000) else u.twoFactorAuth.lockUntil)
        = some (now + 15 * 60 * 1000)
    rw [if_pos h5]
  · intro h5
    show (if u.twoFactorAuth.failedAttempts + 1 >= 5
          then some (now + 15 * 60 * 1000) else u.twoFactorAuth.lockUntil)
        = u.twoFactorAuth.lockUntil
    rw [if_neg (Nat.not_le.mpr h5)]
  · simp [UserDoc.resetTwoFactorFailedAttempts]
  · simp [UserDoc.resetTwoFactorFailedAttempts]
  · intro hv hb v hvmem hvid
    by_cases h5 : u.twoFactorAuth.failedAttempts + 1 >= 5
    · simp only [verify2FALogin, verify2FAInvalid, hid', htok', Bool.or_self,
        Bool.false_eq_true, if_false, hfind, hen, hstat', Bool.not_true, hv, hb,
        if_pos h5, ite_true, ite_false] at hvmem
      rcases mem_saveUser hvmem with h | ⟨_, hne⟩
      · subst h
        refine ⟨rfl, fun _ => rfl, fun hlt => absurd h5 (Nat.not_le.mpr hlt)⟩
      · exact absurd hvid (by simpa [beq_eq_false_iff_ne] using hne)
    · simp only [verify2FALogin, verify2FAInvalid, hid', htok', Bool.or_self,
        Bool.false_eq_true, if_false, hfind, hen, hstat', Bool.not_true, hv, hb,
        if_neg h5, ite_true, ite_false] at hvmem
      rcases mem_saveUser hvmem with h | ⟨_, hne⟩
      · subst h
        exact ⟨rfl, fun hge => absurd hge h5, fun _ => rfl⟩
      · exact absurd hvid (by simpa [beq_eq_false_iff_ne] using hne)
  · intro hv v hvmem hvid
    simp only [verify2FALogin, verify2FAComplete, completed2FAUser, hid', htok',
      Bool.or_self, Bool.false_eq_true, if_false, hfind, hen, hstat', Bool.not_true, hv,
      ite_true, ite_false] at hvmem
    rcases mem_saveUser hvmem with h | ⟨_, hne⟩
    · subst h
      exact ⟨rfl, rfl⟩
    · exact absurd hvid (by simpa [beq_eq_false_iff_ne] using hne)

/-- Account with the second factor enabled for the C6 witness. -/
def c6User : UserDoc :=
  { id := "u9", name := "Ivy", email := "ivy@example.com",
    password := some ("p@ss1234"), isVerified := true, accountStatus := "active",
    accountLockout := ⟨0, none⟩,
    twoFactorAuth := ⟨true, some ("S6"), none, [], [], none, none, 0, 0, none⟩,
    refreshTokens := [], loginHistory := [], lastLogin := none, updatedAt := 0 }

/-- Witness for C6 at a concrete account: the hypotheses hold and the
failure-counter increment follows from the theorem. -/
theorem c6_second_factor_counter_witness :
    ("u9" : String) ≠ ""
    ∧ ("999999" : String) ≠ ""
    ∧ [c6User].find? (fun v => v.id == ("u9")) = some c6User
    ∧ c6User.twoFactorAuth.isEnabled = true
    ∧ c6User.accountStatus = "active"
    ∧ (c6User.handleTwoFactorFailedAttempt 50).twoFactorAuth.failedAttempts
        = c6User.twoFactorAuth.failedAttempts + 1
    ∧ ((c6User.resetTwoFactorFailedAttempts).twoFactorAuth.failedAttempts = 0
        ∧ (c6User.resetTwoFactorFailedAttempts).twoFactorAuth.lockUntil = none) :=
  ⟨by decide, by decide, by decide, by decide, by decide,
   (c6_second_factor_counter noTotp fixedTokens ("nd") 50 ("UA") ("1.1.1.1") [c6User]
      ("u9") ("999999") c6User (by decide) (by decide) (by decide) (by decide)
      (by decide)).1.1,
   (c6_second_factor_counter noTotp fixedTokens ("nd") 50 ("UA") ("1.1.1.1") [c6User]
      ("u9") ("999999") c6User (by decide) (by decide) (by decide) (by decide)
      (by decide)).2.1⟩

/-! ## Claim C5: recovery codes are single use -/

theorem jsFindIndex_some_get {A : Type} {p : A → Bool} {l : List A} {i : Nat}
    (h : jsFindIndex p l = some i) : ∃ x, l.get? i = some x ∧ p x = true := by
  induction l generalizing i with
  | nil => simp [jsFindIndex] at h
  | cons c cs ih =>
    by_cases hc : p c = true
    · simp only [jsFindIndex, hc, if_true] at h
      injection h with h
      subst h
      exact ⟨c, rfl, hc⟩
    · simp only [jsFindIndex, hc, if_false, Bool.false_eq_true] at h
      rcases Option.map_eq_some'.mp h with ⟨i0, hi0, hadd⟩
      subst hadd
      rcases ih hi0 with ⟨x, hx, hpx⟩
      exact ⟨x, by simpa using hx, hpx⟩

theorem markBackupUsed_get?_self {now : Nat} {l : List BackupCode} {i : Nat} {bc : BackupCode}
    (h : l.get? i = some bc) :
    (markBackupUsed now i l).get? i = some { bc with used := true, usedAt := some now } := by
  induction l generalizing i with
  | nil => simp at h
  | cons c cs ih =>
    cases i with
    | zero =>
      injection h with h
      subst h
      rfl
    | succ n =>
      simp only [List.get?_cons_succ] at h
      simpa [markBackupUsed] using ih h

theorem jsFindIndex_none_of_all {h : String} {l : List BackupCode}
    (hall : ∀ bc ∈ l, (bc.code == h) = false) :
    jsFindIndex (fun bc => !bc.used && bc.code == h) l = none := by
  induction l with
  | nil => rfl
  | cons c cs ih =>
    have hc : (c.code == h) = false := hall c (by simp)
    simp only [jsFindIndex, hc, Bool.and_false, if_false, Bool.false_eq_true]
    rw [ih (fun bc hbc => hall bc (by simp [hbc]))]
    rfl

theorem jsFindIndex_mark_none {hsh : String} {l : List BackupCode} {i : Nat} {now : Nat}
    (hfi : jsFindIndex (fun bc => !bc.used && bc.code == hsh) l = some i)
    (hnd : (l.map (fun c => c.code)).Nodup) :
    jsFindIndex (fun bc => !bc.used && bc.code == hsh) (markBackupUsed now i l) = none := by
  induction l generalizing i with
  | nil => simp [jsFindIndex] at hfi
  | cons c cs ih =>
    rw [List.map_cons] at hnd
    rcases List.nodup_cons.mp hnd with ⟨hhead, htail⟩
    by_cases hc : (!c.used && c.code == hsh) = true
    · simp only [jsFindIndex, hc, if_true] at hfi
      injection hfi with hfi
      subst hfi
      have hcode : c.code = hsh := by
        have h2 := hc
        simp only [Bool.and_eq_true, beq_iff_eq] at h2
        exact h2.2
      have hall : ∀ bc ∈ cs, (bc.code == hsh) = false := by
        intro bc hbc
        have hne2 : bc.code ≠ c.code := fun hEq => hhead (List.mem_map.mpr ⟨bc, hbc, hEq⟩)
        simp only [beq_eq_false_iff_ne, ne_eq]
        rw [← hcode]
        exact hne2
      simp only [markBackupUsed, jsFindIndex, Bool.not_true, Bool.false_and,
        Bool.false_eq_true, if_false]
      rw [jsFindIndex_none_of_all hall]
      rfl
    · simp only [jsFindIndex, hc, if_false, Bool.false_eq_true] at hfi
      rcases Option.map_eq_some'.mp hfi with ⟨i0, hi0, hadd⟩
      subst hadd
      simp only [markBackupUsed, jsFindIndex, hc, if_false, Bool.false_eq_true]
      rw [ih hi0 htail]
      rfl

theorem jsFindIndex_mark_other {hsh2 : String} {l : List BackupCode} {i : Nat} {now : Nat}
    {bc : BackupCode} (hget : l.get? i = some bc) (hne : (bc.code == hsh2) = false) :
    jsFindIndex (fun c => !c.used && c.code == hsh2) (markBackupUsed now i l)
      = jsFindIndex (fun c => !c.used && c.code == hsh2) l := by
  induction l generalizing i with
  | nil => simp [markBackupUsed]
  | cons c cs ih =>
    cases i with
    | zero =>
      injection hget with hget
      subst hget
      simp only [markBackupUsed, jsFindIndex, Bool.not_true, Bool.false_and, hne,
        Bool.and_false, Bool.false_eq_true, if_false]
    | succ n =>
      simp only [List.get?_cons_succ] at hget
      simp only [markBackupUsed, jsFindIndex]
      rw [ih hget]

/-- C5.  Once a recovery code is accepted by the second-factor login
verification (the TOTP check fails and the stored hash of the code matches
an unused entry), the login succeeds and the matched entry is persisted as
used; afterwards, the same code is rejected by the next verification
(while distinct stored hashes pairwise differ), and any other code whose
hash still matches an unused entry keeps being accepted. -/
theorem c5_recovery_code_single_use
    (vtotp : String → String → Bool) (issue : UserDoc → String × String)
    (ndi ndi2 ndi3 : String) (now now2 now3 : Nat) (ua ip ua2 ip2 ua3 ip3 : String)
    (db : List UserDoc) (uid code : String) (u : UserDoc) (i : Nat)
    (hid : uid ≠ "") (hcode : code ≠ "")
    (hfind : db.find? (fun v => v.id == uid) = some u)
    (hen : u.twoFactorAuth.isEnabled = true)
    (hstat : u.accountStatus = "active")
    (htotp : verifyTotpOpt vtotp code u.twoFactorAuth.secret = false)
    (hidx : backupMatchIdx code u.twoFactorAuth.backupCodes = some i)
    (hnd : (u.twoFactorAuth.backupCodes.map (fun c => c.code)).Nodup) :
    (∃ a r, (verify2FALogin vtotp issue ndi now ua ip db uid code false).1
        = AuthOutcome.session a r)
    ∧ (∀ v ∈ (verify2FALogin vtotp issue ndi now ua ip db uid code false).2, v.id = u.id →
        v.twoFactorAuth.backupCodes = markBackupUsed now i u.twoFactorAuth.backupCodes
        ∧ ∃ bc, u.twoFactorAuth.backupCodes.get? i = some bc
            ∧ bc.used = false ∧ bc.code = hashBackupCode code
            ∧ (markBackupUsed now i u.twoFactorAuth.backupCodes).get? i
                = some { bc with used := true, usedAt := some now })
    ∧ (verify2FALogin vtotp issue ndi2 now2 ua2 ip2
          (verify2FALogin vtotp issue ndi now ua ip db uid code false).2 uid code false).1
        = AuthOutcome.failure ⟨"Invalid 2FA token", 401⟩
    ∧ (∀ code2 j, code2 ≠ "" →
        verifyTotpOpt vtotp code2 u.twoFactorAuth.secret = false →
        hashBackupCode code2 ≠ hashBackupCode code →
        backupMatchIdx code2 u.twoFactorAuth.backupCodes = some j →
        ∃ a r, (verify2FALogin vtotp issue ndi3 now3 ua3 ip3
            (verify2FALogin vtotp issue ndi now ua ip db uid code false).2 uid code2 false).1
          = AuthOutcome.session a r) := by
  have hid' : (uid == "") = false := by simpa using hid
  have hcode' : (code == "") = false := by simpa using hcode
  have hstat' : (u.accountStatus != "active") = false := by simp [hstat]
  rcases jsFindIndex_some_get hidx with ⟨bc, hget, hp⟩
  have hp' : bc.used = false ∧ bc.code = hashBackupCode code := by
    have h2 := hp
    simp only [Bool.and_eq_true, Bool.not_eq_true', beq_iff_eq] at h2
    exact h2
  have hred : verify2FALogin vtotp issue ndi now ua ip db uid code false
      = verify2FAComplete issue ndi now ua ip db u (some i) false := by
    simp only [verify2FALogin, hid', hcode', Bool.or_self, Bool.false_eq_true, if_false,
      hfind, hen, Bool.not_true, hstat', htotp, hidx, ite_false, ite_true]
  have hu2id : (completed2FAUser ndi now ua ip u (some i) false).id = u.id := rfl
  have hfind2 : (saveUser db (completed2FAUser ndi now ua ip u (some i) false)).find?
      (fun v => v.id == uid) = some (completed2FAUser ndi now ua ip u (some i) false) :=
    find?_saveUser_id hfind hu2id
  have hcodes2 : (completed2FAUser ndi now ua ip u (some i) false).twoFactorAuth.backupCodes
      = markBackupUsed now i u.twoFactorAuth.backupCodes := rfl
  have hb2 : backupMatchIdx code
      (completed2FAUser ndi now ua ip u (some i) false).twoFactorAuth.backupCodes = none := by
    rw [hcodes2]
    exact jsFindIndex_mark_none hidx hnd
  have htotp2 : verifyTotpOpt vtotp code
      (completed2FAUser ndi now ua ip u (some i) false).twoFactorAuth.secret = false := htotp
  have hen2 : (completed2FAUser ndi now ua ip u (some i) false).twoFactorAuth.isEnabled
      = true := hen
  have hstat2 : ((completed2FAUser ndi now ua ip u (some i) false).accountStatus != "active")
      = false := hstat'
  have hfa2 : (completed2FAUser ndi now ua ip u (some i) false).twoFactorAuth.failedAttempts
      = 0 := rfl
  refine ⟨?_, ?_, ?_, ?_⟩
  · rw [hred]
    exact ⟨_, _, rfl⟩
  · intro v hv hvid
    rw [hred] at hv
    rcases mem_saveUser hv with h | ⟨_, hne⟩
    · subst h
      exact ⟨rfl, bc, hget, hp'.1, hp'.2, markBackupUsed_get?_self hget⟩
    · exact absurd hvid (by simpa [beq_eq_false_iff_ne] using hne)
  · rw [hred]
    show (verify2FALogin vtotp issue ndi2 now2 ua2 ip2
        (saveUser db (completed2FAUser ndi now ua ip u (some i) false)) uid code false).1
      = AuthOutcome.failure ⟨"Invalid 2FA token", 401⟩
    simp only [verify2FALogin, hid', hcode', Bool.or_self, Bool.false_eq_true, if_false,
      hfind2, hen2, Bool.not_true, hstat2, htotp2, hb2, ite_false, ite_true,
      verify2FAInvalid, hfa2]
    norm_num
  · intro code2 j hcode2 htotp3 hneh hidx2
    have hcode2' : (code2 == "") = false := by simpa using hcode2
    have hb3 : backupMatchIdx code2
        (completed2FAUser ndi now ua ip u (some i) false).twoFactorAuth.backupCodes
        = some j := by
      rw [hcodes2]
      have hbcne : (bc.code == hashBackupCode code2) = false := by
        simp only [beq_eq_false_iff_ne, ne_eq, hp'.2]
        exact fun hEq => hneh hEq.symm
      calc jsFindIndex (fun c => !c.used && c.code == hashBackupCode code2)
            (markBackupUsed now i u.twoFactorAuth.backupCodes)
          = jsFindIndex (fun c => !c.used && c.code == hashBackupCode code2)
            u.twoFactorAuth.backupCodes := jsFindIndex_mark_other hget hbcne
        _ = some j := hidx2
    have htotp3' : verifyTotpOpt vtotp code2
        (completed2FAUser ndi now ua ip u (some i) false).twoFactorAuth.secret
        = false := htotp3
    rw [hred]
    show ∃ a r, (verify2FALogin vtotp issue ndi3 now3 ua3 ip3
        (saveUser db (completed2FAUser ndi now ua ip u (some i) false)) uid code2 false).1
      = AuthOutcome.session a r
    simp only [verify2FALogin, hid', hcode2', Bool.or_self, Bool.false_eq_true, if_false,
      hfind2, hen2, Bool.not_true, hstat2, htotp3', hb3, ite_false, ite_true]
    exact ⟨_, _, rfl⟩

/-! ## Claim C2: device trust and fingerprint stability -/

theorem any_updateFirstDevice {l : List TrustedDevice} {dev : String} (now : Nat)
    (h : l.any (fun d => d.deviceId == dev) = true) :
    (UserDoc.updateFirstDevice dev now l).any (fun d => d.deviceId == dev && d.isActive)
      = true := by
  induction l with
  | nil => simp at h
  | cons d ds ih =>
    by_cases hd : (d.deviceId == dev) = true
    · simp [UserDoc.updateFirstDevice, hd]
    · simp only [List.any_cons, hd, Bool.false_or] at h
      simp [UserDoc.updateFirstDevice, hd, ih h]

theorem isDeviceTrusted_addTrustedDevice (u : UserDoc) (now : Nat) (dev name ua ip : String) :
    (u.addTrustedDevice now dev name ua ip).isDeviceTrusted dev = true := by
  show (if (u.twoFactorAuth.trustedDevices.any (fun d => d.deviceId == dev)) = true
        then UserDoc.updateFirstDevice dev now u.twoFactorAuth.trustedDevices
        else u.twoFactorAuth.trustedDevices
          ++ [⟨dev, name, ua, ip, now, now, true⟩]).any
      (fun d => d.deviceId == dev && d.isActive) = true
  by_cases h : (u.twoFactorAuth.trustedDevices.any (fun d => d.deviceId == dev)) = true
  · rw [if_pos h]
    exact any_updateFirstDevice now h
  · rw [if_neg h]
    simp

theorem login_trusted_bypass (bcmp vtotp : String → String → Bool)
    (gen : UserDoc → String × String) (now : Nat) (ua ip : String) (db2 : List UserDoc)
    (email pw : String) (w : UserDoc)
    (he' : (email == "") = false) (hp' : (pw == "") = false)
    (hfind2 : db2.find? (fun v => v.email == email) = some w)
    (hcmp2 : w.comparePassword bcmp pw = true)
    (hen2 : w.twoFactorAuth.isEnabled = true)
    (htr2 : w.isDeviceTrusted (generateDeviceId ua ip now) = true) :
    ∃ a r, (login bcmp vtotp gen now ua ip db2 email pw none false).1
      = AuthOutcome.session a r := by
  simp only [login, he', hp', Bool.or_self, Bool.false_eq_true, if_false, hfind2, hcmp2,
    Bool.not_true, hen2, htr2, Bool.not_false, if_true, ite_true, ite_false, loginFinish]
  exact ⟨_, _, rfl⟩

/-- C2 amended.  After a successful login in which a valid TOTP code was
supplied with trustDevice on, the persisted account carries an active
TrustedDevice whose fingerprint is generateDeviceId of the user agent, the
address and the trusting login's own millisecond timestamp; a following
login from the same metadata bypasses the code requirement exactly when
its freshly computed fingerprint coincides with the stored one, which for
the same user agent and address means computing it at the same
millisecond, the fingerprint being salted with the clock.  The
counterexample theorem shows the bypass failing at any later
millisecond. -/
theorem c2_trust_bypass_same_fingerprint
    (bcmp vtotp : String → String → Bool) (gen : UserDoc → String × String)
    (now1 now2 : Nat) (ua ip : String) (db : List UserDoc) (email pw code : String)
    (u : UserDoc)
    (he : email ≠ "") (hp : pw ≠ "")
    (hfind : db.find? (fun v => v.email == email) = some u)
    (hcmp : u.comparePassword bcmp pw = true)
    (hen : u.twoFactorAuth.isEnabled = true)
    (hnt : u.isDeviceTrusted (generateDeviceId ua ip now1) = false)
    (htotp : verifyTotpOpt vtotp code u.twoFactorAuth.secret = true)
    (hsame : generateDeviceId ua ip now2 = generateDeviceId ua ip now1) :
    (∃ a r, (login bcmp vtotp gen now1 ua ip db email pw (some code) true).1
        = AuthOutcome.session a r)
    ∧ (∀ v ∈ (login bcmp vtotp gen now1 ua ip db email pw (some code) true).2,
        v.id = u.id → v.isDeviceTrusted (generateDeviceId ua ip now1) = true)
    ∧ (∃ a r, (login bcmp vtotp gen now2 ua ip
          (login bcmp vtotp gen now1 ua ip db email pw (some code) true).2
          email pw none false).1 = AuthOutcome.session a r) := by
  have he' : (email == "") = false := by simpa using he
  have hp' : (pw == "") = false := by simpa using hp
  have hred1 : login bcmp vtotp gen now1 ua ip db email pw (some code) true
      = loginFinish gen now1 ua ip db
          (totpVerifiedUser now1 (generateDeviceId ua ip now1)
            ((parseDeviceInfo ua).browser ++ (" on ") ++ (parseDeviceInfo ua).os)
            ua ip true u) := by
    simp only [login, he', hp', Bool.or_self, Bool.false_eq_true, if_false, hfind, hcmp,
      Bool.not_true, hen, hnt, htotp, Bool.not_false, if_true, ite_true, ite_false]
  have htrW : (loginSavedUser gen now1 ua ip
      (totpVerifiedUser now1 (generateDeviceId ua ip now1)
        ((parseDeviceInfo ua).browser ++ (" on ") ++ (parseDeviceInfo ua).os)
        ua ip true u)).isDeviceTrusted (generateDeviceId ua ip now1) = true :=
    isDeviceTrusted_addTrustedDevice ((u.resetTwoFactorFailedAttempts).updateTwoFactorUsage now1)
      now1 (generateDeviceId ua ip now1)
      ((parseDeviceInfo ua).browser ++ (" on ") ++ (parseDeviceInfo ua).os) ua ip
  refine ⟨?_, ?_, ?_⟩
  · rw [hred1]
    exact ⟨_, _, rfl⟩
  · intro v hv hvid
    rw [hred1] at hv
    simp only [loginFinish] at hv
    rcases mem_saveUser hv with h | ⟨_, hne⟩
    · subst h
      exact htrW
    · exact absurd hvid (by simpa [beq_eq_false_iff_ne] using hne)
  · rw [hred1]
    simp only [loginFinish]
    refine login_trusted_bypass bcmp vtotp gen now2 ua ip _ email pw
      (loginSavedUser gen now1 ua ip
        (totpVerifiedUser now1 (generateDeviceId ua ip now1)
          ((parseDeviceInfo ua).browser ++ (" on ") ++ (parseDeviceInfo ua).os)
          ua ip true u))
      he' hp' (find?_saveUser_email hfind rfl rfl) hcmp hen ?_
    rw [hsame]
    exact htrW

/-- Account with the second factor enabled and no trusted devices, for the
C2 scenario. -/
def c2User : UserDoc :=
  { id := "u10", name := "Jen", email := "jen@example.com",
    password := some ("p@ss1234"), isVerified := true, accountStatus := "active",
    accountLockout := ⟨0, none⟩,
    twoFactorAuth := ⟨true, some ("S2"), none, [], [], none, none, 0, 0, none⟩,
    refreshTokens := [], loginHistory := [], lastLogin := none, updatedAt := 0 }

/-- TOTP checker accepting the code 111111 against the secret S2. -/
def c2Vtotp : String → String → Bool := fun t s => t == ("111111") && s == ("S2")

/-- The store after the trusting login at millisecond 1000. -/
def c2Db1 : List UserDoc :=
  (login plainCompare c2Vtotp fixedTokens 1000 ("UA") ("1.2.3.4") [c2User]
    ("jen@example.com") ("p@ss1234") (some ("111111")) true).2

set_option maxRecDepth 1000000 in
/-- Counterexample to C2 as stated.  The trusting login at millisecond
1000 succeeds and stores a TrustedDevice whose fingerprint is the hash
salted with 1000; an immediately following login from the same user agent
and address at millisecond 2000 computes a different fingerprint, so it
does not bypass the second factor and answers SecondFactorRequired
instead. -/
theorem c2_time_salted_fingerprint_no_bypass :
    (login plainCompare c2Vtotp fixedTokens 1000 ("UA") ("1.2.3.4") [c2User]
        ("jen@example.com") ("p@ss1234") (some ("111111")) true).1
      = AuthOutcome.session ("acc") ("ref")
    ∧ c2Db1.map (fun v => v.twoFactorAuth.trustedDevices.map (fun d => d.deviceId))
      = [[generateDeviceId ("UA") ("1.2.3.4") 1000]]
    ∧ generateDeviceId ("UA") ("1.2.3.4") 2000 ≠ generateDeviceId ("UA") ("1.2.3.4") 1000
    ∧ (login plainCompare c2Vtotp fixedTokens 2000 ("UA") ("1.2.3.4") c2Db1
        ("jen@example.com") ("p@ss1234") none false).1
      = AuthOutcome.requires2FA ("u10") ("jen@example.com") := by
  decide

/-- Witness for the amended C2: at the same millisecond the recomputed
fingerprint coincides and the following login without a code succeeds. -/
theorem c2_trust_bypass_same_fingerprint_witness :
    ("jen@example.com" : String) ≠ ""
    ∧ ("p@ss1234" : String) ≠ ""
    ∧ [c2User].find? (fun v => v.email == ("jen@example.com")) = some c2User
    ∧ c2User.comparePassword plainCompare ("p@ss1234") = true
    ∧ c2User.twoFactorAuth.isEnabled = true
    ∧ c2User.isDeviceTrusted (generateDeviceId ("UA") ("1.2.3.4") 1000) = false
    ∧ verifyTotpOpt c2Vtotp ("111111") c2User.twoFactorAuth.secret = true
    ∧ (∃ a r, (login plainCompare c2Vtotp fixedTokens 1000 ("UA") ("1.2.3.4")
        (login plainCompare c2Vtotp fixedTokens 1000 ("UA") ("1.2.3.4") [c2User]
          ("jen@example.com") ("p@ss1234") (some ("111111")) true).2
        ("jen@example.com") ("p@ss1234") none false).1 = AuthOutcome.session a r) :=
  ⟨by decide, by decide, by decide, by decide, by decide, by decide, by decide,
   (c2_trust_bypass_same_fingerprint plainCompare c2Vtotp fixedTokens 1000 1000
      ("UA") ("1.2.3.4") [c2User] ("jen@example.com") ("p@ss1234") ("111111") c2User
      (by decide) (by decide) (by decide) (by decide) (by decide) (by decide)
      (by decide) rfl).2.2⟩

/-- Account with the second factor enabled and two unused recovery codes,
for the C5 witness. -/
def c5User : UserDoc :=
  { id := "u11", name := "Kim", email := "kim@example.com",
    password := some ("p@ss1234"), isVerified := true, accountStatus := "active",
    accountLockout := ⟨0, none⟩,
    twoFactorAuth := ⟨true, some ("S5"), none,
      [⟨hashBackupCode ("AAAA1111"), false, none⟩, ⟨hashBackupCode ("BBBB2222"), false, none⟩],
      [], none, none, 0, 0, none⟩,
    refreshTokens := [], loginHistory := [], lastLogin := none, updatedAt := 0 }

set_option maxRecDepth 1000000 in
/-- Witness for C5 at a concrete account with two recovery codes: the
first code matches the first stored hash and the stored hashes are
distinct, so the theorem applies and the acceptance succeeds. -/
theorem c5_recovery_code_single_use_witness :
    ("u11" : String) ≠ ""
    ∧ ("AAAA1111" : String) ≠ ""
    ∧ [c5User].find? (fun v => v.id == ("u11")) = some c5User
    ∧ c5User.twoFactorAuth.isEnabled = true
    ∧ c5User.accountStatus = "active"
    ∧ verifyTotpOpt noTotp ("AAAA1111") c5User.twoFactorAuth.secret = false
    ∧ backupMatchIdx ("AAAA1111") c5User.twoFactorAuth.backupCodes = some 0
    ∧ (c5User.twoFactorAuth.backupCodes.map (fun c => c.code)).Nodup
    ∧ (∃ a r, (verify2FALogin noTotp fixedTokens ("nd") 5 ("UA") ("1.1.1.1") [c5User]
        ("u11") ("AAAA1111") false).1 = AuthOutcome.session a r)
    ∧ (verify2FALogin noTotp fixedTokens ("nd") 6 ("UA") ("1.1.1.1")
        (verify2FALogin noTotp fixedTokens ("nd") 5 ("UA") ("1.1.1.1") [c5User]
          ("u11") ("AAAA1111") false).2 ("u11") ("AAAA1111") false).1
      = AuthOutcome.failure ⟨"Invalid 2FA token", 401⟩ :=
  ⟨by decide, by decide, by decide, by decide, by decide, by decide, by decide, by decide,
   (c5_recovery_code_single_use noTotp fixedTokens ("nd") ("nd") ("nd") 5 6 7
      ("UA") ("1.1.1.1") ("UA") ("1.1.1.1") ("UA") ("1.1.1.1") [c5User] ("u11")
      ("AAAA1111") c5User 0 (by decide) (by decide) (by decide) (by decide) (by decide)
      (by decide) (by decide) (by decide)).1,
   (c5_recovery_code_single_use noTotp fixedTokens ("nd") ("nd") ("nd") 5 6 7
      ("UA") ("1.1.1.1") ("UA") ("1.1.1.1") ("UA") ("1.1.1.1") [c5User] ("u11")
      ("AAAA1111") c5User 0 (by decide) (by decide) (by decide) (by decide) (by decide)
      (by decide) (by decide) (by decide)).2.2.1⟩
